import Mathlib

/-!
Shallow embedding of the rotation orchestrator of `ip_changer.py`
(KreelFr/Project-T).  Pure helpers (`load_proxy_list`, `find_ovpn_files`,
`check_ip`, `proxy_to_requests_proxies`) are translated as Lean functions on
the data they consume (file contents are passed as a list of lines, directory
contents as a list of entries).  The stateful orchestrator
(`AutoChanger.run_loop` and the adapters it drives) is translated as explicit
state passing over a state `S` that records an event trace, a pending
Python exception (`exc`), and cursors into a `World` of environment oracles
(one oracle value per external interaction, indexed by how many interactions
of that kind have happened).  A raised exception is modelled by setting
`exc`; every primitive is a no-op while `exc` is set, which reproduces
unwinding, and `try/except Exception` blocks are modelled by `tryCatchS`.
Suffix `S` marks the stateful embedding of a source function.
-/

/-- Python whitespace for `str.strip`: space, tab, LF, CR, VT, FF. -/
def pyWhitespace (c : Char) : Bool :=
  c == ' ' || c == '\t' || c == '\n' || c == '\r' || c == Char.ofNat 11 || c == Char.ofNat 12

/-- Python `str.strip()`: drop leading and trailing whitespace. -/
def pyStrip (x : String) : String :=
  String.mk (((x.toList.dropWhile pyWhitespace).reverse.dropWhile pyWhitespace).reverse)

/-- Python `str.startswith(pre)`. -/
def pyStartsWith (x pre : String) : Bool :=
  pre.toList.isPrefixOf x.toList

/-- Python `str.lower()` (ASCII range, which is all the source compares). -/
def pyLower (x : String) : String :=
  String.mk (x.toList.map Char.toLower)

/-- Python `str.endswith(suf)`. -/
def pyEndsWith (x suf : String) : Bool :=
  suf.toList.isSuffixOf x.toList

/-- Insert into a sorted list, after any equal keys (stability of `sorted`). -/
def pyInsert (x : String) : List String → List String
  | [] => [x]
  | y :: ys => if x < y then x :: y :: ys else y :: pyInsert x ys

/-- Python `sorted` on strings: stable, ascending lexicographic order. -/
def pySorted (l : List String) : List String :=
  l.foldl (fun acc x => pyInsert x acc) []

/-- `load_proxy_list` (ip_changer.py lines 108-117): strip each line, skip
blank lines and lines starting with `#`, append the rest in file order.
The file body is passed as its list of lines. -/
def load_proxy_list : List String → List String
  | [] => []
  | line :: rest =>
    let s := pyStrip line
    if s = "" ∨ pyStartsWith s "#" = true then load_proxy_list rest
    else s :: load_proxy_list rest

/-- `find_ovpn_files` (ip_changer.py lines 124-125): sorted directory
entries, keep names ending in `.ovpn` case-insensitively, join with the
directory path (`os.path.join` modelled as separator concatenation). -/
def find_ovpn_files (dirpath : String) (entries : List String) : List String :=
  ((pySorted entries).filter (fun p => pyEndsWith (pyLower p) ".ovpn")).map
    (fun p => dirpath ++ "/" ++ p)

/-- `proxy_to_requests_proxies` (lines 119-121): one proxy URL for both the
`http` and `https` keys of the requests proxies dict (modelled as a pair). -/
def proxy_to_requests_proxies (proxy_url : String) : String × String :=
  (proxy_url, proxy_url)

/-- The body of `check_ip`'s `try` block (lines 37-40): the outcome of
`requests.get` is an oracle value, `Except.ok body` for a response with
text `body`, `Except.error e` for a raised transport exception `e`. -/
def check_ipBody (resp : Except String String) : Except String String :=
  match resp with
  | Except.ok body => Except.ok (pyStrip body)
  | Except.error e => Except.error e

/-- `check_ip` (lines 34-42): the `try/except Exception` folds every failure
into the string `"ERROR: {e}"`; the function is total (never raises). -/
def check_ip (resp : Except String String) : String :=
  match check_ipBody resp with
  | Except.ok ip => ip
  | Except.error e => "ERROR: " ++ e

/-- Outcome of one `subprocess.check_call` in `tor_reload_service`. -/
inductive SubprocOutcome
  | success
  | calledProcessError
  | fileNotFound
deriving DecidableEq

/-- Outcome of `subprocess.Popen` + 2s poll in `start_openvpn`. -/
inductive VpnStartOutcome
  | started
  | exitedQuickly (rc : Int)
  | fileNotFound
  | otherError (e : String)
deriving DecidableEq

/-- Outcome of `p.terminate(); p.wait(timeout=10)` in `stop_process`. -/
inductive VpnStopOutcome
  | terminated
  | timeout
deriving DecidableEq

/-- One log line per `log(...)` call site of the source, with its runtime
arguments; `LogMsg.render` below gives the exact source text. -/
inductive LogMsg
  | started (mode : String)
  | dryRunEnabled
  | torAuthFailed (resp : String)
  | torSignalRejected (resp : String)
  | torControlError (e : String)
  | attemptingRestart
  | userDeclined
  | ranCmd (cmd : List String)
  | couldNotRestart
  | requestedNewnym
  | fallbackRestart
  | ipBefore (ip : String)
  | torChangeIncomplete
  | ipAfterTor (ip : String)
  | failedCheckTor (e : String)
  | ipViaProxy (purl ip : String)
  | startingOvpn (cfg : String)
  | ovpnStarted
  | ovpnExitedQuickly (rc : Int)
  | ovpnBinaryMissing
  | ovpnStartFailed (e : String)
  | ovpnFailedStart
  | sleepingForVpn (secs : Int)
  | ipAfterVpn (ip : String)
  | usingVpnCfg (cfg : String)
  | vpnTerminated
  | vpnKilled
  | loadedProxies (n : Nat) (path : String)
  | foundOvpns (n : Nat) (path : String)
  | iterHeader (k : Nat)
  | runningTor
  | usingProxy (purl : String)
  | noProxies
  | noOvpns
  | runOnceExit
  | reachedCount (c : Int)
  | finished
  | fatal (e : String)
deriving DecidableEq

/-- Exact text of each modelled log line, as the source formats it. -/
def LogMsg.render : LogMsg → String
  | started mode => "AutoChanger started. Mode: " ++ mode
  | dryRunEnabled => "Dry-run mode enabled. Privileged actions will NOT run."
  | torAuthFailed resp => "Tor control auth failed: " ++ resp
  | torSignalRejected resp => "Tor control SIGNAL response: " ++ resp
  | torControlError e => "Tor control error: " ++ e
  | attemptingRestart => "Attempting to restart 'tor' service (requires sudo)."
  | userDeclined => "User declined to restart tor service."
  | ranCmd cmd => "Ran: sudo " ++ String.intercalate " " cmd
  | couldNotRestart => "Could not restart tor service automatically. Please restart tor manually."
  | requestedNewnym => "Requested NEWNYM via Tor control port."
  | fallbackRestart => "Tor control port NEWNYM failed; falling back to service restart."
  | ipBefore ip => "IP before (direct): " ++ ip
  | torChangeIncomplete => "TOR identity change did not complete."
  | ipAfterTor ip => "IP after (via TOR): " ++ ip
  | failedCheckTor e => "Failed to check IP via tor: " ++ e
  | ipViaProxy purl ip => "IP via proxy " ++ purl ++ ": " ++ ip
  | startingOvpn cfg => "Starting OpenVPN config: " ++ cfg
  | ovpnStarted => "OpenVPN process started."
  | ovpnExitedQuickly rc => "OpenVPN process exited quickly. Returncode: " ++ toString rc
  | ovpnBinaryMissing => "openvpn binary not found. Install OpenVPN (e.g. apt install openvpn)."
  | ovpnStartFailed e => "Failed to start openvpn: " ++ e
  | ovpnFailedStart => "OpenVPN failed to start for this config."
  | sleepingForVpn secs => "Sleeping " ++ toString secs ++ " seconds for VPN to establish..."
  | ipAfterVpn ip => "IP after VPN: " ++ ip
  | usingVpnCfg cfg => "Using VPN config: " ++ cfg
  | vpnTerminated => "VPN process terminated."
  | vpnKilled => "VPN process killed."
  | loadedProxies n path => "Loaded " ++ toString n ++ " proxies from " ++ path
  | foundOvpns n path => "Found " ++ toString n ++ " .ovpn files in " ++ path
  | iterHeader k => "--- Iteration " ++ toString k ++ " ---"
  | runningTor => "Running TOR change..."
  | usingProxy purl => "Using proxy: " ++ purl
  | noProxies => "No proxies provided; sleeping."
  | noOvpns => "No .ovpn files provided; sleeping."
  | runOnceExit => "run_once specified; exiting loop."
  | reachedCount c => "Reached count " ++ toString c ++ ", exiting."
  | finished => "AutoChanger finished."
  | fatal e => "Fatal error: " ++ e

/-- Observable events of a run: log lines, cancellation-flag polls, sleeps
(milliseconds), HTTP probes, Tor control-socket traffic, subprocess
creation attempts, the interactive confirmation prompt, the VPN process
lifecycle calls, and entry into `_wait_or_stop` (the inter-cycle wait). -/
inductive Event
  | log (m : LogMsg)
  | poll (value : Bool)
  | sleep (ms : Nat)
  | httpGet (proxies : Option (String × String))
  | controlConnect (host : String) (port : Nat)
  | controlSend (line : String)
  | subprocess (cmd : List String)
  | prompt
  | procTerminate
  | procWait
  | procKill
  | waitCall (intervalS : Int)
deriving DecidableEq

/-- Environment oracles: outcome of the k-th interaction of each kind.
`stop` is the value of `stop_event.is_set()` at the k-th poll (the signal
handler is the only writer and only ever sets it).  `logFail k` says
whether the k-th `log(...)` call raises (log writes can fail with OSError).
`proxyFile` / `ovpnEntries` are the results of opening the proxy-list file
/ listing the VPN directory (`Except.error` models a raised OSError). -/
structure World where
  stop : Nat → Bool
  logFail : Nat → Bool
  http : Nat → Except String String
  torConnect : Nat → Except String Unit
  torAuth : Nat → String
  torSignal : Nat → String
  reloadAnswer : Nat → String
  reloadCmd1 : Nat → SubprocOutcome
  reloadCmd2 : Nat → SubprocOutcome
  vpnStart : Nat → VpnStartOutcome
  vpnStop : Nat → VpnStopOutcome
  proxyFile : Except String (List String)
  ovpnEntries : Except String (List String)

/-- The `args` namespace produced by `parse_args` (lines 277-289), already
resolved (RotationConfig).  `interval`, `wait_after_change` and `count` are
Python ints, so modelled as `Int`. -/
structure Args where
  mode : String
  interval : Int
  wait_after_change : Int
  proxy_list : Option String
  ovpn_dir : Option String
  tor_control_password : Option String
  count : Int
  run_once : Bool
  dry_run : Bool

/-- Machine state of a run: the oracles, cursors counting consumed oracle
values of each kind, the event trace, and the pending exception. -/
structure S where
  w : World
  polls : Nat := 0
  logs : Nat := 0
  https : Nat := 0
  tors : Nat := 0
  reloads : Nat := 0
  vpns : Nat := 0
  vstops : Nat := 0
  trace : List Event := []
  exc : Option String := none

/-- Fresh state over a world. -/
def S.init (w : World) : S := { w := w }

/-- Append one event (no-op while an exception is pending). -/
def emitS (e : Event) (s : S) : S :=
  if s.exc.isSome then s else { s with trace := s.trace ++ [e] }

/-- Raise a Python exception (no-op while one is already pending). -/
def raiseS (msg : String) (s : S) : S :=
  if s.exc.isSome then s else { s with exc := some msg }

/-- One `log(msg)` call (lines 28-32): appends to the log file and prints;
the write can raise, per the `logFail` oracle. -/
def logS (m : LogMsg) (s : S) : S :=
  if s.exc.isSome then s
  else if s.w.logFail s.logs then { s with logs := s.logs + 1, exc := some "OSError: log write failed" }
  else { s with logs := s.logs + 1, trace := s.trace ++ [Event.log m] }

/-- One `stop_event.is_set()` check. -/
def pollS (s : S) : Bool × S :=
  if s.exc.isSome then (false, s)
  else (s.w.stop s.polls,
        { s with polls := s.polls + 1, trace := s.trace ++ [Event.poll (s.w.stop s.polls)] })

/-- One `time.sleep` of the given number of milliseconds. -/
def sleepS (ms : Nat) (s : S) : S :=
  emitS (Event.sleep ms) s

/-- Advance cursors with `f` and append `evs` (no-op while an exception is
pending); `f` is always a pure cursor bump that touches neither the world,
the trace, nor the exception. -/
def stepS (f : S → S) (evs : List Event) (s : S) : S :=
  if s.exc.isSome then s else { f s with trace := s.trace ++ evs }

/-- A `try: body except Exception as e: handler` block. -/
def tryCatchS (body : S → S) (handler : String → S → S) (s : S) : S :=
  if s.exc.isSome then s
  else
    let s' := body s
    match s'.exc with
    | some e => handler e { s' with exc := none }
    | none => s'

/-- One `check_ip(proxies=..)` call inside the orchestrator: one HTTP GET
whose outcome is the next `http` oracle value; never raises (see
`check_ip`). -/
def check_ipS (proxies : Option (String × String)) (s : S) : String × S :=
  if s.exc.isSome then ("", s)
  else (check_ip (s.w.http s.https),
        { s with https := s.https + 1, trace := s.trace ++ [Event.httpGet proxies] })

/-- The `AUTHENTICATE` line written by `tor_newnym_via_control` (lines
56-58): quoted password if configured, bare authenticate otherwise. -/
def authLineOf : Option String → String
  | some pw => "AUTHENTICATE \"" ++ pw ++ "\"\r\n"
  | none => "AUTHENTICATE\r\n"

/-- `tor_newnym_via_control` (lines 45-76).  The control connection, the
authentication response line and the signal response line come from the
`torConnect`/`torAuth`/`torSignal` oracles (one triple per attempt); a
failed connection is a caught exception.  Success of each protocol step is
`startswith("250")` on the response line, exactly as in the source. -/
def tor_newnym_via_controlS (control_host : String) (control_port : Nat)
    (password : Option String) (s : S) : Bool × S :=
  if s.exc.isSome then (false, s)
  else
    match s.w.torConnect s.tors with
    | Except.error e =>
      let s1 := stepS (fun u => { u with tors := u.tors + 1 })
                      [Event.controlConnect control_host control_port] s
      (false, logS (LogMsg.torControlError e) s1)
    | Except.ok _ =>
      let authLine := authLineOf password
      let auth := s.w.torAuth s.tors
      let sigr := s.w.torSignal s.tors
      let s1 := stepS (fun u => { u with tors := u.tors + 1 })
                      [Event.controlConnect control_host control_port,
                       Event.controlSend authLine] s
      if pyStartsWith auth "250" = false then
        (false, logS (LogMsg.torAuthFailed (pyStrip auth)) s1)
      else
        let s2 := emitS (Event.controlSend "SIGNAL NEWNYM\r\n") s1
        if pyStartsWith sigr "250" = true then (true, s2)
        else (false, logS (LogMsg.torSignalRejected (pyStrip sigr)) s2)

/-- `tor_reload_service` (lines 78-96): confirmation prompt, then the two
restart commands in order; `CalledProcessError` and `FileNotFoundError`
both fall through to the next command. -/
def tor_reload_serviceS (s : S) : Bool × S :=
  if s.exc.isSome then (false, s)
  else
    let s1 := logS LogMsg.attemptingRestart s
    let ans := s1.w.reloadAnswer s1.reloads
    let c1 := s1.w.reloadCmd1 s1.reloads
    let c2 := s1.w.reloadCmd2 s1.reloads
    let s2 := stepS (fun u => { u with reloads := u.reloads + 1 }) [Event.prompt] s1
    if pyLower (pyStrip ans) ≠ "y" then (false, logS LogMsg.userDeclined s2)
    else
      match c1 with
      | SubprocOutcome.success =>
        let s3 := emitS (Event.subprocess ["sudo", "systemctl", "restart", "tor"]) s2
        (true, logS (LogMsg.ranCmd ["systemctl", "restart", "tor"]) s3)
      | _ =>
        let s3 := emitS (Event.subprocess ["sudo", "systemctl", "restart", "tor"]) s2
        match c2 with
        | SubprocOutcome.success =>
          let s4 := emitS (Event.subprocess ["sudo", "service", "tor", "restart"]) s3
          (true, logS (LogMsg.ranCmd ["service", "tor", "restart"]) s4)
        | _ =>
          let s4 := emitS (Event.subprocess ["sudo", "service", "tor", "restart"]) s3
          (false, logS LogMsg.couldNotRestart s4)

/-- `tor_change_identity` (lines 98-105): try the control port; on success
log and return true, on failure log and fall back to the service restart. -/
def tor_change_identityS (control_password : Option String) (s : S) : Bool × S :=
  if s.exc.isSome then (false, s)
  else
    let r := tor_newnym_via_controlS "127.0.0.1" 9051 control_password s
    if r.1 = true then (true, logS LogMsg.requestedNewnym r.2)
    else
      let s1 := logS LogMsg.fallbackRestart r.2
      tor_reload_serviceS s1

/-- `start_openvpn` (lines 127-145): log, Popen under the `vpnStart`
oracle, 2s grace sleep, then poll; `FileNotFoundError` and any other
exception are caught inside the function.  Returns whether a live process
handle was obtained. -/
def start_openvpnS (config_path : String) (s : S) : Bool × S :=
  if s.exc.isSome then (false, s)
  else
    let s1 := logS (LogMsg.startingOvpn config_path) s
    match s1.w.vpnStart s1.vpns with
    | VpnStartOutcome.started =>
      let s2 := stepS (fun u => { u with vpns := u.vpns + 1 })
                      [Event.subprocess ["sudo", "openvpn", "--config", config_path]] s1
      let s3 := sleepS 2000 s2
      (true, logS LogMsg.ovpnStarted s3)
    | VpnStartOutcome.exitedQuickly rc =>
      let s2 := stepS (fun u => { u with vpns := u.vpns + 1 })
                      [Event.subprocess ["sudo", "openvpn", "--config", config_path]] s1
      let s3 := sleepS 2000 s2
      (false, logS (LogMsg.ovpnExitedQuickly rc) s3)
    | VpnStartOutcome.fileNotFound =>
      let s2 := stepS (fun u => { u with vpns := u.vpns + 1 }) [] s1
      (false, logS LogMsg.ovpnBinaryMissing s2)
    | VpnStartOutcome.otherError e =>
      let s2 := stepS (fun u => { u with vpns := u.vpns + 1 }) [] s1
      (false, logS (LogMsg.ovpnStartFailed e) s2)

/-- `stop_process` (lines 147-157): terminate, bounded wait (timeout
raises, per the `vpnStop` oracle), log; any exception in the try block
(including a failed log write) is caught, the process is killed and the
kill is logged. -/
def stop_processS (s : S) : S :=
  tryCatchS
    (fun t =>
      let t1 := emitS Event.procTerminate t
      match t1.w.vpnStop t1.vstops with
      | VpnStopOutcome.terminated =>
        let t2 := stepS (fun u => { u with vstops := u.vstops + 1 }) [Event.procWait] t1
        logS LogMsg.vpnTerminated t2
      | VpnStopOutcome.timeout =>
        let t2 := stepS (fun u => { u with vstops := u.vstops + 1 }) [Event.procWait] t1
        raiseS "TimeoutExpired" t2)
    (fun _ t =>
      let t1 := emitS Event.procKill t
      logS LogMsg.vpnKilled t1)
    s

/-- `AutoChanger.run_once_tor` (lines 171-185).  The `try` around the
after-probe covers the probe (which cannot raise) and its log call. -/
def run_once_torS (args : Args) (s : S) : S :=
  if s.exc.isSome then s
  else
    let r0 := check_ipS none s
    let s1 := logS (LogMsg.ipBefore r0.1) r0.2
    let r1 := tor_change_identityS args.tor_control_password s1
    if r1.1 = false then logS LogMsg.torChangeIncomplete r1.2
    else
      let s2 := sleepS (1000 * args.wait_after_change.toNat) r1.2
      tryCatchS
        (fun t =>
          let r2 := check_ipS (some ("socks5h://127.0.0.1:9050", "socks5h://127.0.0.1:9050")) t
          logS (LogMsg.ipAfterTor r2.1) r2.2)
        (fun e t => logS (LogMsg.failedCheckTor e) t)
        s2

/-- `AutoChanger.run_once_proxy` (lines 187-193). -/
def run_once_proxyS (args : Args) (proxy_url : String) (s : S) : S :=
  if s.exc.isSome then s
  else
    let r0 := check_ipS none s
    let s1 := logS (LogMsg.ipBefore r0.1) r0.2
    let pr := proxy_to_requests_proxies proxy_url
    let s2 := sleepS (1000 * args.wait_after_change.toNat) s1
    let r1 := check_ipS (some pr) s2
    logS (LogMsg.ipViaProxy proxy_url r1.1) r1.2

/-- `AutoChanger.run_once_vpn` (lines 195-210).  Note the source has no
`try/finally`: every step after the VPN start runs in straight line, so a
raised exception (a failed log write) skips `stop_process`. -/
def run_once_vpnS (args : Args) (ovpn_path : String) (s : S) : S :=
  if s.exc.isSome then s
  else
    let r0 := check_ipS none s
    let s1 := logS (LogMsg.ipBefore r0.1) r0.2
    let r1 := start_openvpnS ovpn_path s1
    if r1.1 = false then logS LogMsg.ovpnFailedStart r1.2
    else
      let wsec := max 5 args.wait_after_change
      let s2 := logS (LogMsg.sleepingForVpn wsec) r1.2
      let s3 := sleepS (1000 * wsec.toNat) s2
      let r2 := check_ipS none s3
      let s4 := logS (LogMsg.ipAfterVpn r2.1) r2.2
      let s5 := stop_processS s4
      sleepS 2000 s5

/-- Body of `AutoChanger._wait_or_stop` (lines 268-274): elapsed time is
measured in completed half-second sleeps; each pass re-checks the elapsed
bound, then the flag, then sleeps 0.5s.  `remaining` is the number of
half-seconds still inside the bound. -/
def wait_or_stopAux : Nat → S → S
  | 0, s => s
  | r + 1, s =>
    let p := pollS s
    if p.1 = true then p.2 else wait_or_stopAux r (sleepS 500 p.2)

/-- `AutoChanger._wait_or_stop`: waits `args.interval` seconds in 0.5s
slices, polling the cancellation flag before each slice.  The `waitCall`
event marks entry into the helper. -/
def wait_or_stopS (args : Args) (s : S) : S :=
  let s1 := emitS (Event.waitCall args.interval) s
  wait_or_stopAux (2 * args.interval).toNat s1

/-- The `for purl in proxies:` loop of `run_loop` (lines 235-239). -/
def forProxiesS (args : Args) : List String → S → S
  | [], s => s
  | purl :: rest, s =>
    if s.exc.isSome then s
    else
      let p := pollS s
      if p.1 = true then p.2
      else
        let s1 := logS (LogMsg.usingProxy purl) p.2
        let s2 := run_once_proxyS args purl s1
        let s3 := wait_or_stopS args s2
        forProxiesS args rest s3

/-- The `for cfg in ovpns:` loop of `run_loop` (lines 243-247). -/
def forVpnsS (args : Args) : List String → S → S
  | [], s => s
  | cfg :: rest, s =>
    if s.exc.isSome then s
    else
      let p := pollS s
      if p.1 = true then p.2
      else
        let s1 := logS (LogMsg.usingVpnCfg cfg) p.2
        let s2 := run_once_vpnS args cfg s1
        let s3 := wait_or_stopS args s2
        forVpnsS args rest s3

/-- One iteration body of `run_loop` (lines 228-254): Tor section, proxy
section, VPN section, then the two idle-wait fallbacks. -/
def iterBodyS (args : Args) (proxies ovpns : List String) (s : S) : S :=
  let s1 := if args.mode = "tor" ∨ args.mode = "all" then
              run_once_torS args (logS LogMsg.runningTor s)
            else s
  let s2 := if (args.mode = "proxy" ∨ args.mode = "all") ∧ proxies ≠ [] then
              forProxiesS args proxies s1
            else s1
  let s3 := if (args.mode = "vpn" ∨ args.mode = "all") ∧ ovpns ≠ [] then
              forVpnsS args ovpns s2
            else s2
  let s4 := if args.mode = "proxy" ∧ proxies = [] then
              wait_or_stopS args (logS LogMsg.noProxies s3)
            else s3
  if args.mode = "vpn" ∧ ovpns = [] then
    wait_or_stopS args (logS LogMsg.noOvpns s4)
  else s4

/-- The `while not self.stop_event.is_set():` loop of `run_loop` (lines
224-264), with the iteration counter threaded explicitly and bounded by
`fuel` passes (`none` = fuel exhausted with the loop still running; `some
n` = the loop exited - normally or by a propagating exception - with the
iteration counter at `n`). -/
def run_loopAux (args : Args) (proxies ovpns : List String) :
    Nat → Nat → S → Option Nat × S
  | 0, _, s => (none, s)
  | fuel + 1, iteration, s =>
    if s.exc.isSome then (some iteration, s)
    else
      let p := pollS s
      if p.1 = true then (some iteration, p.2)
      else
        let it := iteration + 1
        let s1 := logS (LogMsg.iterHeader it) p.2
        let s2 := iterBodyS args proxies ovpns s1
        if s2.exc.isSome then (some it, s2)
        else if args.run_once = true then (some it, logS LogMsg.runOnceExit s2)
        else if args.count ≠ 0 ∧ (it : Int) ≥ args.count then
          (some it, logS (LogMsg.reachedCount args.count) s2)
        else run_loopAux args proxies ovpns fuel it s2

/-- `AutoChanger.run_loop` (lines 212-266): prepare the proxy and VPN lists
(file open / directory listing may raise and then propagates), run the
loop, and log completion on normal exit. -/
def run_loopS (args : Args) (fuel : Nat) (s : S) : Option Nat × S :=
  let pp : List String × S :=
    match args.proxy_list with
    | none => ([], s)
    | some path =>
      match s.w.proxyFile with
      | Except.error e => ([], raiseS e s)
      | Except.ok fileLines =>
        let ps := load_proxy_list fileLines
        (ps, logS (LogMsg.loadedProxies ps.length path) s)
  let proxies := pp.1
  let sA := pp.2
  let oo : List String × S :=
    if sA.exc.isSome then ([], sA)
    else
      match args.ovpn_dir with
      | none => ([], sA)
      | some dir =>
        match sA.w.ovpnEntries with
        | Except.error e => ([], raiseS e sA)
        | Except.ok entries =>
          let ovpns := find_ovpn_files dir entries
          (ovpns, logS (LogMsg.foundOvpns ovpns.length dir) sA)
  let ovpns := oo.1
  let sB := oo.2
  if sB.exc.isSome then (some 0, sB)
  else
    let r := run_loopAux args proxies ovpns fuel 0 sB
    match r.1 with
    | some it => (some it, logS LogMsg.finished r.2)
    | none => (none, r.2)

/-- `main` (lines 291-304): startup logs outside the `try`, then
`run_loop` inside `try/except`: on an exception the handler logs
`Fatal error: {e}` and re-raises. -/
def mainS (args : Args) (fuel : Nat) (w : World) : Option Nat × S :=
  let s1 := logS (LogMsg.started args.mode) (S.init w)
  let s2 := if args.dry_run = true then logS LogMsg.dryRunEnabled s1 else s1
  if s2.exc.isSome then (none, s2)
  else
    let r := run_loopS args fuel s2
    match r.2.exc with
    | none => r
    | some e =>
      let s3 := logS (LogMsg.fatal e) { r.2 with exc := none }
      (r.1, match s3.exc with
            | some _ => s3
            | none => { s3 with exc := some e })

/-- Event classifiers used by the theorems. -/
def isHeaderE : Event → Bool
  | Event.log (LogMsg.iterHeader _) => true
  | _ => false

def isWaitCallE : Event → Bool
  | Event.waitCall _ => true
  | _ => false

def isSubprocE : Event → Bool
  | Event.subprocess _ => true
  | _ => false

def isPromptE : Event → Bool
  | Event.prompt => true
  | _ => false

def isTerminateE : Event → Bool
  | Event.procTerminate => true
  | _ => false

def isKillE : Event → Bool
  | Event.procKill => true
  | _ => false

def isPollE : Event → Bool
  | Event.poll _ => true
  | _ => false

def isControlConnectE : Event → Bool
  | Event.controlConnect _ _ => true
  | _ => false

/-- Real external actions in the sense of dry-run: a subprocess creation
attempt or a control-socket connection. -/
def isExternalE (e : Event) : Bool :=
  isSubprocE e || isControlConnectE e

/-- Duration of a sleep event (0 for non-sleeps). -/
def sleepDur : Event → Nat
  | Event.sleep ms => ms
  | _ => 0

/-- Number of events of a given kind in a trace. -/
def evCount (p : Event → Bool) (tr : List Event) : Nat :=
  (tr.filter p).length

/-- Iteration number carried by a `--- Iteration k ---` log line. -/
def headerKey : Event → Option Nat
  | Event.log (LogMsg.iterHeader k) => some k
  | _ => none

/-- Iteration numbers of the `--- Iteration k ---` log lines, in order. -/
def headerList (tr : List Event) : List Nat :=
  tr.filterMap headerKey

/-- Worlds whose log writes never fail. -/
def noLogFail (w : World) : Prop :=
  ∀ k, w.logFail k = false

/-- Events that are not iteration headers. -/
def maskNoH (e : Event) : Bool :=
  !isHeaderE e

/-- Events that are neither iteration headers nor `_wait_or_stop` entries. -/
def maskNoHW (e : Event) : Bool :=
  !isHeaderE e && !isWaitCallE e

/-- Events a Tor control-port attempt may produce: no subprocess, no
prompt, no header, no inter-cycle wait. -/
def maskCtl (e : Event) : Bool :=
  !isHeaderE e && !isWaitCallE e && !isSubprocE e && !isPromptE e

/-- Events the body of `_wait_or_stop` may produce: flag polls and
half-second sleeps only. -/
def maskWaitOnly (e : Event) : Bool :=
  isPollE e || e == Event.sleep 500

/-- One step of the frame relation: `s'` keeps the world of `s`, only
appends trace events allowed by `mask`, and (when log writes never fail)
has no pending exception if `s` had none. -/
def TripleAt (mask : Event → Bool) (s s' : S) : Prop :=
  s'.w = s.w
    ∧ (∃ t, s'.trace = s.trace ++ t ∧ ∀ e ∈ t, mask e = true)
    ∧ (noLogFail s.w → s.exc = none → s'.exc = none)

/-- Frame property of a state transformer: it preserves the world, only
appends trace events allowed by `mask`, and (when log writes never fail)
never leaves an exception pending if none was. -/
def InvM (mask : Event → Bool) (op : S → S) : Prop :=
  ∀ s, TripleAt mask s (op s)

/-- Checks the discipline claimed for identity changes: after an identity
change action (observable as a Tor control connection), an inter-cycle wait
must occur before the next one begins; `pending` records whether a change
has happened with no wait yet. -/
def changeThenWaitOk : List Event → Bool → Bool
  | [], _ => true
  | e :: rest, pending =>
    if isControlConnectE e then
      (if pending then false else changeThenWaitOk rest true)
    else if isWaitCallE e then changeThenWaitOk rest false
    else changeThenWaitOk rest pending

/-- A benign environment: the flag is never set, log writes succeed, the
probe answers `1.2.3.4`, the Tor control port accepts both commands, the
restart prompt is declined and no command is available, OpenVPN is not
installed, teardown waits succeed, the proxy file and VPN directory are
readable and empty. -/
def wOK : World :=
  { stop := fun _ => false
    logFail := fun _ => false
    http := fun _ => Except.ok "1.2.3.4\n"
    torConnect := fun _ => Except.ok ()
    torAuth := fun _ => "250 OK\r\n"
    torSignal := fun _ => "250 OK\r\n"
    reloadAnswer := fun _ => ""
    reloadCmd1 := fun _ => SubprocOutcome.fileNotFound
    reloadCmd2 := fun _ => SubprocOutcome.fileNotFound
    vpnStart := fun _ => VpnStartOutcome.fileNotFound
    vpnStop := fun _ => VpnStopOutcome.terminated
    proxyFile := Except.ok []
    ovpnEntries := Except.ok [] }

/-- A dry-run Tor configuration: `--mode tor --run-once --dry-run` with the
default interval and settle time. -/
def c1Args : Args :=
  { mode := "tor", interval := 60, wait_after_change := 5, proxy_list := none,
    ovpn_dir := none, tor_control_password := none, count := 0,
    run_once := true, dry_run := true }

/-- The bounded Tor configuration `--mode tor --count 2` (defaults otherwise). -/
def c5Args : Args :=
  { c1Args with run_once := false, count := 2, dry_run := false }

/-- A VPN configuration `--mode vpn --interval 1 --run-once`. -/
def c6Args : Args :=
  { mode := "vpn", interval := 1, wait_after_change := 5, proxy_list := none,
    ovpn_dir := none, tor_control_password := none, count := 0,
    run_once := true, dry_run := false }

/-- Like `wOK` but OpenVPN starts successfully and the fifth log write (the
`IP after VPN:` line) raises an OSError. -/
def wC6 : World :=
  { wOK with vpnStart := fun _ => VpnStartOutcome.started, logFail := fun k => k == 4 }

/-- Like `wOK` but OpenVPN starts successfully and all log writes succeed. -/
def wVpnOk : World :=
  { wOK with vpnStart := fun _ => VpnStartOutcome.started }

/-- Like `wOK` but the cancellation flag is already set. -/
def wStopTrue : World :=
  { wOK with stop := fun _ => true }

/-- Like `wOK` but the Tor control connection is refused. -/
def wConnFail : World :=
  { wOK with torConnect := fun _ => Except.error "ConnectionRefusedError" }

/-- Like `wOK` but opening the proxy-list file raises. -/
def wBadProxyFile : World :=
  { wOK with proxyFile := Except.error "FileNotFoundError: proxies.txt" }

/-- A proxy configuration pointing at a proxy-list path. -/
def pArgs : Args :=
  { mode := "proxy", interval := 60, wait_after_change := 5,
    proxy_list := some "proxies.txt", ovpn_dir := none,
    tor_control_password := none, count := 0, run_once := true, dry_run := false }

/-! ### Frame lemmas: world preservation, trace deltas, exception safety -/

theorem InvM.weaken {m1 m2 : Event → Bool} {op : S → S}
    (h : InvM m1 op) (himp : ∀ e, m1 e = true → m2 e = true) : InvM m2 op := by
  intro s
  obtain ⟨hw, ⟨t, ht, hm⟩, he⟩ := h s
  exact ⟨hw, ⟨t, ht, fun e hmem => himp e (hm e hmem)⟩, he⟩

theorem InvM.skip {m : Event → Bool} : InvM m (fun s => s) := by
  intro s
  exact ⟨rfl, ⟨[], by simp, by simp⟩, fun _ he => he⟩

theorem InvM.comp {m : Event → Bool} {f g : S → S}
    (hf : InvM m f) (hg : InvM m g) : InvM m (fun s => g (f s)) := by
  intro s
  obtain ⟨hw1, ⟨t1, ht1, hm1⟩, he1⟩ := hf s
  obtain ⟨hw2, ⟨t2, ht2, hm2⟩, he2⟩ := hg (f s)
  refine ⟨hw2.trans hw1, ⟨t1 ++ t2, ?_, ?_⟩, ?_⟩
  · rw [ht2, ht1, List.append_assoc]
  · intro e he
    rcases List.mem_append.1 he with h | h
    · exact hm1 e h
    · exact hm2 e h
  · intro hnl hexc
    refine he2 ?_ (he1 hnl hexc)
    rw [hw1]
    exact hnl

theorem InvM.ite {m : Event → Bool} (c : Prop) [Decidable c] {f : S → S}
    (hf : InvM m f) : InvM m (fun s => if c then f s else s) := by
  by_cases h : c
  · simpa [h] using hf
  · simpa [h] using (InvM.skip (m := m))

theorem invM_emitS {m : Event → Bool} (e : Event) (hme : m e = true) :
    InvM m (emitS e) := by
  intro s
  refine ⟨?_, ?_, ?_⟩
  · unfold emitS; split <;> rfl
  · unfold emitS; split
    · exact ⟨[], by simp, by simp⟩
    · refine ⟨[e], rfl, ?_⟩
      intro x hx
      simp only [List.mem_singleton] at hx
      subst hx
      exact hme
  · intro _ hexc
    unfold emitS
    split <;> simpa using hexc

theorem invM_logS {m : Event → Bool} (msg : LogMsg)
    (hm : m (Event.log msg) = true) : InvM m (logS msg) := by
  intro s
  refine ⟨?_, ?_, ?_⟩
  · unfold logS
    split
    · rfl
    · split <;> rfl
  · unfold logS
    split
    · exact ⟨[], by simp, by simp⟩
    · split
      · exact ⟨[], by simp, by simp⟩
      · refine ⟨[Event.log msg], rfl, ?_⟩
        intro x hx
        simp only [List.mem_singleton] at hx
        subst hx
        exact hm
  · intro hnl hexc
    unfold logS
    split
    · simpa using hexc
    · split
      · next hfail => exact absurd hfail (by simp [hnl s.logs])
      · simpa using hexc

theorem invM_stepS {m : Event → Bool} (f : S → S) (evs : List Event)
    (hf : ∀ u, (f u).w = u.w ∧ (f u).exc = u.exc)
    (hm : ∀ e ∈ evs, m e = true) : InvM m (stepS f evs) := by
  intro s
  refine ⟨?_, ?_, ?_⟩
  · unfold stepS
    split
    · rfl
    · exact (hf s).1
  · unfold stepS
    split
    · exact ⟨[], by simp, by simp⟩
    · exact ⟨evs, rfl, hm⟩
  · intro _ hexc
    unfold stepS
    split
    · simpa using hexc
    · show (f s).exc = none
      rw [(hf s).2]
      exact hexc

theorem invM_pollS {m : Event → Bool} (hp : ∀ b, m (Event.poll b) = true) :
    InvM m (fun s => (pollS s).2) := by
  intro s
  refine ⟨?_, ?_, ?_⟩
  · simp only [pollS]; split <;> rfl
  · simp only [pollS]
    split
    · exact ⟨[], by simp, by simp⟩
    · refine ⟨[Event.poll (s.w.stop s.polls)], rfl, ?_⟩
      intro x hx
      simp only [List.mem_singleton] at hx
      subst hx
      exact hp _
  · intro _ hexc
    simp only [pollS]
    split <;> simpa using hexc

theorem invM_sleepS {m : Event → Bool} (ms : Nat)
    (h : m (Event.sleep ms) = true) : InvM m (sleepS ms) :=
  invM_emitS _ h

theorem invM_check_ipS {m : Event → Bool} (pr : Option (String × String))
    (h : m (Event.httpGet pr) = true) : InvM m (fun s => (check_ipS pr s).2) := by
  intro s
  refine ⟨?_, ?_, ?_⟩
  · simp only [check_ipS]; split <;> rfl
  · simp only [check_ipS]
    split
    · exact ⟨[], by simp, by simp⟩
    · refine ⟨[Event.httpGet pr], rfl, ?_⟩
      intro x hx
      simp only [List.mem_singleton] at hx
      subst hx
      exact h
  · intro _ hexc
    simp only [check_ipS]
    split <;> simpa using hexc

theorem invM_tryCatchS {m : Event → Bool} {body : S → S} {handler : String → S → S}
    (hb : InvM m body) (hh : ∀ e, InvM m (handler e)) :
    InvM m (tryCatchS body handler) := by
  intro s
  unfold tryCatchS
  by_cases hexc : s.exc.isSome = true
  · rw [if_pos hexc]
    exact ⟨rfl, ⟨[], by simp, by simp⟩, fun _ he => he⟩
  · rw [if_neg hexc]
    obtain ⟨hw1, ⟨t1, ht1, hm1⟩, he1⟩ := hb s
    cases hE : (body s).exc with
    | none =>
      simp only [hE]
      refine ⟨hw1, ⟨t1, ht1, hm1⟩, ?_⟩
      intro _ _
      simp [hE]
    | some e =>
      simp only [hE]
      obtain ⟨hw2, ⟨t2, ht2, hm2⟩, he2⟩ := (hh e) { body s with exc := none }
      refine ⟨?_, ⟨t1 ++ t2, ?_, ?_⟩, ?_⟩
      · rw [hw2]; exact hw1
      · rw [ht2]
        show (body s).trace ++ t2 = s.trace ++ (t1 ++ t2)
        rw [ht1, List.append_assoc]
      · intro x hx
        rcases List.mem_append.1 hx with h | h
        · exact hm1 x h
        · exact hm2 x h
      · intro hnl hexc0
        exact absurd (he1 hnl hexc0) (by simp [hE])

theorem allMask0 {m : Event → Bool} : ∀ e ∈ ([] : List Event), m e = true := by
  intro e he
  simp at he

theorem allMask1 {m : Event → Bool} {a : Event} (ha : m a = true) :
    ∀ e ∈ [a], m e = true := by
  intro e he
  simp only [List.mem_singleton] at he
  subst he
  exact ha

theorem allMask2 {m : Event → Bool} {a b : Event} (ha : m a = true) (hb : m b = true) :
    ∀ e ∈ [a, b], m e = true := by
  intro e he
  simp only [List.mem_cons, List.mem_singleton, List.not_mem_nil, or_false] at he
  rcases he with rfl | rfl
  · exact ha
  · exact hb

theorem logS_w (m : LogMsg) (s : S) : (logS m s).w = s.w := by
  unfold logS
  split
  · rfl
  · split <;> rfl

theorem logS_reloads (m : LogMsg) (s : S) : (logS m s).reloads = s.reloads := by
  unfold logS
  split
  · rfl
  · split <;> rfl

theorem logS_vpns (m : LogMsg) (s : S) : (logS m s).vpns = s.vpns := by
  unfold logS
  split
  · rfl
  · split <;> rfl

theorem emitS_w (e : Event) (s : S) : (emitS e s).w = s.w := by
  unfold emitS
  split <;> rfl

theorem emitS_vstops (e : Event) (s : S) : (emitS e s).vstops = s.vstops := by
  unfold emitS
  split <;> rfl

theorem invM_id_state {m : Event → Bool} (s : S) :
    s.w = s.w ∧ (∃ t, s.trace = s.trace ++ t ∧ ∀ e ∈ t, m e = true) ∧
      (noLogFail s.w → s.exc = none → s.exc = none) :=
  ⟨rfl, ⟨[], by simp, allMask0⟩, fun _ he => he⟩

theorem invM_tor_newnym (h : String) (p : Nat) (pw : Option String) :
    InvM maskCtl (fun s => (tor_newnym_via_controlS h p pw s).2) := by
  intro s
  cases hexc : s.exc.isSome with
  | true =>
    have heq : (tor_newnym_via_controlS h p pw s).2 = s := by
      simp [tor_newnym_via_controlS, hexc]
    simp only [heq]
    exact ⟨rfl, ⟨[], by simp, allMask0⟩, fun _ he => he⟩
  | false =>
    have hstep : InvM maskCtl
        (stepS (fun u => { u with tors := u.tors + 1 })
          [Event.controlConnect h p, Event.controlSend (authLineOf pw)]) :=
      invM_stepS _ _ (fun u => ⟨rfl, rfl⟩) (allMask2 rfl rfl)
    cases hc : s.w.torConnect s.tors with
    | error e =>
      have heq : (tor_newnym_via_controlS h p pw s).2
          = logS (LogMsg.torControlError e)
              (stepS (fun u => { u with tors := u.tors + 1 }) [Event.controlConnect h p] s) := by
        simp [tor_newnym_via_controlS, hexc, hc]
      simp only [heq]
      have h1 : InvM maskCtl
          (stepS (fun u => { u with tors := u.tors + 1 }) [Event.controlConnect h p]) :=
        invM_stepS _ _ (fun u => ⟨rfl, rfl⟩) (allMask1 rfl)
      have h2 : InvM maskCtl (logS (LogMsg.torControlError e)) := invM_logS _ rfl
      exact (InvM.comp h1 h2) s
    | ok u =>
      by_cases hauth : pyStartsWith (s.w.torAuth s.tors) "250" = false
      · have heq : (tor_newnym_via_controlS h p pw s).2
            = logS (LogMsg.torAuthFailed (pyStrip (s.w.torAuth s.tors)))
                (stepS (fun u => { u with tors := u.tors + 1 })
                  [Event.controlConnect h p, Event.controlSend (authLineOf pw)] s) := by
          simp [tor_newnym_via_controlS, hexc, hc, hauth]
        simp only [heq]
        have h2 : InvM maskCtl (logS (LogMsg.torAuthFailed (pyStrip (s.w.torAuth s.tors)))) :=
          invM_logS _ rfl
        exact (InvM.comp hstep h2) s
      · by_cases hsig : pyStartsWith (s.w.torSignal s.tors) "250" = true
        · have heq : (tor_newnym_via_controlS h p pw s).2
              = emitS (Event.controlSend "SIGNAL NEWNYM\r\n")
                  (stepS (fun u => { u with tors := u.tors + 1 })
                    [Event.controlConnect h p, Event.controlSend (authLineOf pw)] s) := by
            simp [tor_newnym_via_controlS, hexc, hc, hauth, hsig]
          simp only [heq]
          have h2 : InvM maskCtl (emitS (Event.controlSend "SIGNAL NEWNYM\r\n")) :=
            invM_emitS _ rfl
          exact (InvM.comp hstep h2) s
        · have heq : (tor_newnym_via_controlS h p pw s).2
              = logS (LogMsg.torSignalRejected (pyStrip (s.w.torSignal s.tors)))
                  (emitS (Event.controlSend "SIGNAL NEWNYM\r\n")
                    (stepS (fun u => { u with tors := u.tors + 1 })
                      [Event.controlConnect h p, Event.controlSend (authLineOf pw)] s)) := by
            simp [tor_newnym_via_controlS, hexc, hc, hauth, hsig]
          simp only [heq]
          have h2 : InvM maskCtl (emitS (Event.controlSend "SIGNAL NEWNYM\r\n")) :=
            invM_emitS _ rfl
          have h3 : InvM maskCtl
              (logS (LogMsg.torSignalRejected (pyStrip (s.w.torSignal s.tors)))) :=
            invM_logS _ rfl
          exact (InvM.comp (InvM.comp hstep h2) h3) s

theorem emitS_exc (e : Event) (s : S) : (emitS e s).exc = s.exc := by
  unfold emitS
  split <;> rfl

theorem raiseS_trace (msg : String) (s : S) : (raiseS msg s).trace = s.trace := by
  unfold raiseS
  split <;> rfl

theorem raiseS_w (msg : String) (s : S) : (raiseS msg s).w = s.w := by
  unfold raiseS
  split <;> rfl

theorem invM_tor_reload : InvM maskNoHW (fun s => (tor_reload_serviceS s).2) := by
  intro s
  cases hexc : s.exc.isSome with
  | true =>
    have heq : (tor_reload_serviceS s).2 = s := by
      simp [tor_reload_serviceS, hexc]
    simp only [heq]
    exact ⟨rfl, ⟨[], by simp, allMask0⟩, fun _ he => he⟩
  | false =>
    have hl : InvM maskNoHW (logS LogMsg.attemptingRestart) := invM_logS _ rfl
    have hpr : InvM maskNoHW
        (stepS (fun u => { u with reloads := u.reloads + 1 }) [Event.prompt]) :=
      invM_stepS _ _ (fun u => ⟨rfl, rfl⟩) (allMask1 rfl)
    have hsub1 : InvM maskNoHW (emitS (Event.subprocess ["sudo", "systemctl", "restart", "tor"])) :=
      invM_emitS _ rfl
    have hsub2 : InvM maskNoHW (emitS (Event.subprocess ["sudo", "service", "tor", "restart"])) :=
      invM_emitS _ rfl
    by_cases hans : pyLower (pyStrip ((logS LogMsg.attemptingRestart s).w.reloadAnswer
        (logS LogMsg.attemptingRestart s).reloads)) = "y"
    · cases hc1 : (logS LogMsg.attemptingRestart s).w.reloadCmd1
          (logS LogMsg.attemptingRestart s).reloads with
      | success =>
        have heq : (tor_reload_serviceS s).2
            = logS (LogMsg.ranCmd ["systemctl", "restart", "tor"])
                (emitS (Event.subprocess ["sudo", "systemctl", "restart", "tor"])
                  (stepS (fun u => { u with reloads := u.reloads + 1 }) [Event.prompt]
                    (logS LogMsg.attemptingRestart s))) := by
          simp [tor_reload_serviceS, hexc, hans, hc1]
        simp only [heq]
        have hr : InvM maskNoHW (logS (LogMsg.ranCmd ["systemctl", "restart", "tor"])) :=
          invM_logS _ rfl
        exact (InvM.comp (InvM.comp (InvM.comp hl hpr) hsub1) hr) s
      | calledProcessError =>
        cases hc2 : (logS LogMsg.attemptingRestart s).w.reloadCmd2
            (logS LogMsg.attemptingRestart s).reloads with
        | success =>
          have heq : (tor_reload_serviceS s).2
              = logS (LogMsg.ranCmd ["service", "tor", "restart"])
                  (emitS (Event.subprocess ["sudo", "service", "tor", "restart"])
                    (emitS (Event.subprocess ["sudo", "systemctl", "restart", "tor"])
                      (stepS (fun u => { u with reloads := u.reloads + 1 }) [Event.prompt]
                        (logS LogMsg.attemptingRestart s)))) := by
            simp [tor_reload_serviceS, hexc, hans, hc1, hc2]
          simp only [heq]
          have hr : InvM maskNoHW (logS (LogMsg.ranCmd ["service", "tor", "restart"])) :=
            invM_logS _ rfl
          exact (InvM.comp (InvM.comp (InvM.comp (InvM.comp hl hpr) hsub1) hsub2) hr) s
        | calledProcessError =>
          have heq : (tor_reload_serviceS s).2
              = logS LogMsg.couldNotRestart
                  (emitS (Event.subprocess ["sudo", "service", "tor", "restart"])
                    (emitS (Event.subprocess ["sudo", "systemctl", "restart", "tor"])
                      (stepS (fun u => { u with reloads := u.reloads + 1 }) [Event.prompt]
                        (logS LogMsg.attemptingRestart s)))) := by
            simp [tor_reload_serviceS, hexc, hans, hc1, hc2]
          simp only [heq]
          have hr : InvM maskNoHW (logS LogMsg.couldNotRestart) := invM_logS _ rfl
          exact (InvM.comp (InvM.comp (InvM.comp (InvM.comp hl hpr) hsub1) hsub2) hr) s
        | fileNotFound =>
          have heq : (tor_reload_serviceS s).2
              = logS LogMsg.couldNotRestart
                  (emitS (Event.subprocess ["sudo", "service", "tor", "restart"])
                    (emitS (Event.subprocess ["sudo", "systemctl", "restart", "tor"])
                      (stepS (fun u => { u with reloads := u.reloads + 1 }) [Event.prompt]
                        (logS LogMsg.attemptingRestart s)))) := by
            simp [tor_reload_serviceS, hexc, hans, hc1, hc2]
          simp only [heq]
          have hr : InvM maskNoHW (logS LogMsg.couldNotRestart) := invM_logS _ rfl
          exact (InvM.comp (InvM.comp (InvM.comp (InvM.comp hl hpr) hsub1) hsub2) hr) s
      | fileNotFound =>
        cases hc2 : (logS LogMsg.attemptingRestart s).w.reloadCmd2
            (logS LogMsg.attemptingRestart s).reloads with
        | success =>
          have heq : (tor_reload_serviceS s).2
              = logS (LogMsg.ranCmd ["service", "tor", "restart"])
                  (emitS (Event.subprocess ["sudo", "service", "tor", "restart"])
                    (emitS (Event.subprocess ["sudo", "systemctl", "restart", "tor"])
                      (stepS (fun u => { u with reloads := u.reloads + 1 }) [Event.prompt]
                        (logS LogMsg.attemptingRestart s)))) := by
            simp [tor_reload_serviceS, hexc, hans, hc1, hc2]
          simp only [heq]
          have hr : InvM maskNoHW (logS (LogMsg.ranCmd ["service", "tor", "restart"])) :=
            invM_logS _ rfl
          exact (InvM.comp (InvM.comp (InvM.comp (InvM.comp hl hpr) hsub1) hsub2) hr) s
        | calledProcessError =>
          have heq : (tor_reload_serviceS s).2
              = logS LogMsg.couldNotRestart
                  (emitS (Event.subprocess ["sudo", "service", "tor", "restart"])
                    (emitS (Event.subprocess ["sudo", "systemctl", "restart", "tor"])
                      (stepS (fun u => { u with reloads := u.reloads + 1 }) [Event.prompt]
                        (logS LogMsg.attemptingRestart s)))) := by
            simp [tor_reload_serviceS, hexc, hans, hc1, hc2]
          simp only [heq]
          have hr : InvM maskNoHW (logS LogMsg.couldNotRestart) := invM_logS _ rfl
          exact (InvM.comp (InvM.comp (InvM.comp (InvM.comp hl hpr) hsub1) hsub2) hr) s
        | fileNotFound =>
          have heq : (tor_reload_serviceS s).2
              = logS LogMsg.couldNotRestart
                  (emitS (Event.subprocess ["sudo", "service", "tor", "restart"])
                    (emitS (Event.subprocess ["sudo", "systemctl", "restart", "tor"])
                      (stepS (fun u => { u with reloads := u.reloads + 1 }) [Event.prompt]
                        (logS LogMsg.attemptingRestart s)))) := by
            simp [tor_reload_serviceS, hexc, hans, hc1, hc2]
          simp only [heq]
          have hr : InvM maskNoHW (logS LogMsg.couldNotRestart) := invM_logS _ rfl
          exact (InvM.comp (InvM.comp (InvM.comp (InvM.comp hl hpr) hsub1) hsub2) hr) s
    · have heq : (tor_reload_serviceS s).2
          = logS LogMsg.userDeclined
              (stepS (fun u => { u with reloads := u.reloads + 1 }) [Event.prompt]
                (logS LogMsg.attemptingRestart s)) := by
        simp [tor_reload_serviceS, hexc, hans]
      simp only [heq]
      have hr : InvM maskNoHW (logS LogMsg.userDeclined) := invM_logS _ rfl
      exact (InvM.comp (InvM.comp hl hpr) hr) s

theorem invM_tor_change (pw : Option String) :
    InvM maskNoHW (fun s => (tor_change_identityS pw s).2) := by
  intro s
  cases hexc : s.exc.isSome with
  | true =>
    have heq : (tor_change_identityS pw s).2 = s := by
      simp [tor_change_identityS, hexc]
    simp only [heq]
    exact ⟨rfl, ⟨[], by simp, allMask0⟩, fun _ he => he⟩
  | false =>
    have hn : InvM maskNoHW (fun s => (tor_newnym_via_controlS "127.0.0.1" 9051 pw s).2) :=
      (invM_tor_newnym _ _ pw).weaken (by intro e he; simp [maskCtl, maskNoHW] at he ⊢; tauto)
    cases hok : (tor_newnym_via_controlS "127.0.0.1" 9051 pw s).1 with
    | true =>
      have heq : (tor_change_identityS pw s).2
          = logS LogMsg.requestedNewnym (tor_newnym_via_controlS "127.0.0.1" 9051 pw s).2 := by
        simp [tor_change_identityS, hexc, hok]
      simp only [heq]
      have hr : InvM maskNoHW (logS LogMsg.requestedNewnym) := invM_logS _ rfl
      exact (InvM.comp hn hr) s
    | false =>
      have heq : (tor_change_identityS pw s).2
          = (tor_reload_serviceS
              (logS LogMsg.fallbackRestart (tor_newnym_via_controlS "127.0.0.1" 9051 pw s).2)).2 := by
        simp [tor_change_identityS, hexc, hok]
      simp only [heq]
      have hr : InvM maskNoHW (logS LogMsg.fallbackRestart) := invM_logS _ rfl
      exact (InvM.comp (InvM.comp hn hr) invM_tor_reload) s

theorem invM_start_openvpn (cfg : String) :
    InvM maskNoHW (fun s => (start_openvpnS cfg s).2) := by
  intro s
  cases hexc : s.exc.isSome with
  | true =>
    have heq : (start_openvpnS cfg s).2 = s := by
      simp [start_openvpnS, hexc]
    simp only [heq]
    exact ⟨rfl, ⟨[], by simp, allMask0⟩, fun _ he => he⟩
  | false =>
    have hl : InvM maskNoHW (logS (LogMsg.startingOvpn cfg)) := invM_logS _ rfl
    have hstep : InvM maskNoHW
        (stepS (fun u => { u with vpns := u.vpns + 1 })
          [Event.subprocess ["sudo", "openvpn", "--config", cfg]]) :=
      invM_stepS _ _ (fun u => ⟨rfl, rfl⟩) (allMask1 rfl)
    have hstep0 : InvM maskNoHW (stepS (fun u => { u with vpns := u.vpns + 1 }) []) :=
      invM_stepS _ _ (fun u => ⟨rfl, rfl⟩) allMask0
    have hsl : InvM maskNoHW (sleepS 2000) := invM_sleepS _ rfl
    cases hv : (logS (LogMsg.startingOvpn cfg) s).w.vpnStart (logS (LogMsg.startingOvpn cfg) s).vpns with
    | started =>
      have heq : (start_openvpnS cfg s).2
          = logS LogMsg.ovpnStarted
              (sleepS 2000
                (stepS (fun u => { u with vpns := u.vpns + 1 })
                  [Event.subprocess ["sudo", "openvpn", "--config", cfg]]
                  (logS (LogMsg.startingOvpn cfg) s))) := by
        simp [start_openvpnS, hexc, hv]
      simp only [heq]
      have hr : InvM maskNoHW (logS LogMsg.ovpnStarted) := invM_logS _ rfl
      exact (InvM.comp (InvM.comp (InvM.comp hl hstep) hsl) hr) s
    | exitedQuickly rc =>
      have heq : (start_openvpnS cfg s).2
          = logS (LogMsg.ovpnExitedQuickly rc)
              (sleepS 2000
                (stepS (fun u => { u with vpns := u.vpns + 1 })
                  [Event.subprocess ["sudo", "openvpn", "--config", cfg]]
                  (logS (LogMsg.startingOvpn cfg) s))) := by
        simp [start_openvpnS, hexc, hv]
      simp only [heq]
      have hr : InvM maskNoHW (logS (LogMsg.ovpnExitedQuickly rc)) := invM_logS _ rfl
      exact (InvM.comp (InvM.comp (InvM.comp hl hstep) hsl) hr) s
    | fileNotFound =>
      have heq : (start_openvpnS cfg s).2
          = logS LogMsg.ovpnBinaryMissing
              (stepS (fun u => { u with vpns := u.vpns + 1 }) []
                (logS (LogMsg.startingOvpn cfg) s)) := by
        simp [start_openvpnS, hexc, hv]
      simp only [heq]
      have hr : InvM maskNoHW (logS LogMsg.ovpnBinaryMissing) := invM_logS _ rfl
      exact (InvM.comp (InvM.comp hl hstep0) hr) s
    | otherError e =>
      have heq : (start_openvpnS cfg s).2
          = logS (LogMsg.ovpnStartFailed e)
              (stepS (fun u => { u with vpns := u.vpns + 1 }) []
                (logS (LogMsg.startingOvpn cfg) s)) := by
        simp [start_openvpnS, hexc, hv]
      simp only [heq]
      have hr : InvM maskNoHW (logS (LogMsg.ovpnStartFailed e)) := invM_logS _ rfl
      exact (InvM.comp (InvM.comp hl hstep0) hr) s

theorem invM_stop_process : InvM maskNoHW stop_processS := by
  intro s
  cases hexc : s.exc.isSome with
  | true =>
    have heq : stop_processS s = s := by
      simp [stop_processS, tryCatchS, hexc]
    simp only [heq]
    exact ⟨rfl, ⟨[], by simp, allMask0⟩, fun _ he => he⟩
  | false =>
    have hsn : s.exc = none := by
      cases hh : s.exc with
      | none => rfl
      | some v => rw [hh] at hexc; simp at hexc
    have hterm : InvM maskNoHW (emitS Event.procTerminate) := invM_emitS _ rfl
    have hwait : InvM maskNoHW
        (stepS (fun u => { u with vstops := u.vstops + 1 }) [Event.procWait]) :=
      invM_stepS _ _ (fun u => ⟨rfl, rfl⟩) (allMask1 rfl)
    have hkill : InvM maskNoHW (emitS Event.procKill) := invM_emitS _ rfl
    have hlogk : InvM maskNoHW (logS LogMsg.vpnKilled) := invM_logS _ rfl
    have hlogt : InvM maskNoHW (logS LogMsg.vpnTerminated) := invM_logS _ rfl
    cases hstop : s.w.vpnStop s.vstops with
    | terminated =>
      cases hbe : (logS LogMsg.vpnTerminated
          (stepS (fun u => { u with vstops := u.vstops + 1 }) [Event.procWait]
            (emitS Event.procTerminate s))).exc with
      | none =>
        have heq : stop_processS s
            = logS LogMsg.vpnTerminated
                (stepS (fun u => { u with vstops := u.vstops + 1 }) [Event.procWait]
                  (emitS Event.procTerminate s)) := by
          simp [stop_processS, tryCatchS, hexc, emitS_w, emitS_vstops, hstop, hbe]
        simp only [heq]
        exact (InvM.comp (InvM.comp hterm hwait) hlogt) s
      | some e =>
        have heq : stop_processS s
            = logS LogMsg.vpnKilled
                (emitS Event.procKill
                  { logS LogMsg.vpnTerminated
                      (stepS (fun u => { u with vstops := u.vstops + 1 }) [Event.procWait]
                        (emitS Event.procTerminate s)) with exc := none }) := by
          simp [stop_processS, tryCatchS, hexc, emitS_w, emitS_vstops, hstop, hbe]
        simp only [heq]
        obtain ⟨hw1, ⟨t1, ht1, hm1⟩, he1⟩ := (InvM.comp (InvM.comp hterm hwait) hlogt) s
        obtain ⟨hw2, ⟨t2, ht2, hm2⟩, _⟩ :=
          (InvM.comp hkill hlogk)
            { logS LogMsg.vpnTerminated
                (stepS (fun u => { u with vstops := u.vstops + 1 }) [Event.procWait]
                  (emitS Event.procTerminate s)) with exc := none }
        refine ⟨?_, ⟨t1 ++ t2, ?_, ?_⟩, ?_⟩
        · rw [hw2]; exact hw1
        · rw [ht2]
          show (logS LogMsg.vpnTerminated _).trace ++ t2 = s.trace ++ (t1 ++ t2)
          rw [ht1, List.append_assoc]
        · intro x hx
          rcases List.mem_append.1 hx with hmem | hmem
          · exact hm1 x hmem
          · exact hm2 x hmem
        · intro hnl _
          exact absurd (he1 hnl hsn) (by simp [hbe])
    | timeout =>
      have h1 : (emitS Event.procTerminate s).exc = none := by
        rw [emitS_exc]; exact hsn
      have h2 : (stepS (fun u => { u with vstops := u.vstops + 1 }) [Event.procWait]
          (emitS Event.procTerminate s)).exc = none := by
        simp [stepS, h1]
      have hbx : (raiseS "TimeoutExpired"
          (stepS (fun u => { u with vstops := u.vstops + 1 }) [Event.procWait]
            (emitS Event.procTerminate s))).exc = some "TimeoutExpired" := by
        simp [raiseS, h2]
      have heq : stop_processS s
          = logS LogMsg.vpnKilled
              (emitS Event.procKill
                { raiseS "TimeoutExpired"
                    (stepS (fun u => { u with vstops := u.vstops + 1 }) [Event.procWait]
                      (emitS Event.procTerminate s)) with exc := none }) := by
        simp [stop_processS, tryCatchS, hexc, emitS_w, emitS_vstops, hstop, hbx]
      simp only [heq]
      obtain ⟨hw1, ⟨t1, ht1, hm1⟩, _⟩ := (InvM.comp hterm hwait) s
      obtain ⟨hw2, ⟨t2, ht2, hm2⟩, he2⟩ :=
        (InvM.comp hkill hlogk)
          { raiseS "TimeoutExpired"
              (stepS (fun u => { u with vstops := u.vstops + 1 }) [Event.procWait]
                (emitS Event.procTerminate s)) with exc := none }
      refine ⟨?_, ⟨t1 ++ t2, ?_, ?_⟩, ?_⟩
      · rw [hw2]
        show (raiseS "TimeoutExpired" _).w = s.w
        rw [raiseS_w]
        exact hw1
      · rw [ht2]
        show (raiseS "TimeoutExpired" _).trace ++ t2 = s.trace ++ (t1 ++ t2)
        rw [raiseS_trace, ht1, List.append_assoc]
      · intro x hx
        rcases List.mem_append.1 hx with hmem | hmem
        · exact hm1 x hmem
        · exact hm2 x hmem
      · intro hnl _
        refine he2 ?_ rfl
        show noLogFail (raiseS "TimeoutExpired" _).w
        rw [raiseS_w, hw1]
        exact hnl

theorem TripleAt.refl {m : Event → Bool} (s : S) : TripleAt m s s :=
  ⟨rfl, ⟨[], by simp, allMask0⟩, fun _ he => he⟩

theorem TripleAt.trans {m : Event → Bool} {s1 s2 s3 : S}
    (h12 : TripleAt m s1 s2) (h23 : TripleAt m s2 s3) : TripleAt m s1 s3 := by
  obtain ⟨hw1, ⟨t1, ht1, hm1⟩, he1⟩ := h12
  obtain ⟨hw2, ⟨t2, ht2, hm2⟩, he2⟩ := h23
  refine ⟨hw2.trans hw1, ⟨t1 ++ t2, ?_, ?_⟩, ?_⟩
  · rw [ht2, ht1, List.append_assoc]
  · intro e he
    rcases List.mem_append.1 he with h | h
    · exact hm1 e h
    · exact hm2 e h
  · intro hnl hexc
    refine he2 ?_ (he1 hnl hexc)
    rw [hw1]
    exact hnl

theorem TripleAt.mono {m1 m2 : Event → Bool} {s1 s2 : S}
    (h : TripleAt m1 s1 s2) (himp : ∀ e, m1 e = true → m2 e = true) :
    TripleAt m2 s1 s2 := by
  obtain ⟨hw, ⟨t, ht, hm⟩, he⟩ := h
  exact ⟨hw, ⟨t, ht, fun e hmem => himp e (hm e hmem)⟩, he⟩

theorem maskNoHW_le_noH : ∀ e, maskNoHW e = true → maskNoH e = true := by
  intro e he
  simp [maskNoHW] at he
  simp [maskNoH, he.1]

theorem invM_run_once_tor (args : Args) : InvM maskNoHW (run_once_torS args) := by
  intro s
  cases hexc : s.exc.isSome with
  | true =>
    have heq : run_once_torS args s = s := by
      simp [run_once_torS, hexc]
    simp only [heq]
    exact TripleAt.refl s
  | false =>
    have h01 : TripleAt maskNoHW s
        (logS (LogMsg.ipBefore (check_ipS none s).1) (check_ipS none s).2) :=
      ((invM_check_ipS (m := maskNoHW) none rfl) s).trans ((invM_logS _ rfl) _)
    cases hok : (tor_change_identityS args.tor_control_password
        (logS (LogMsg.ipBefore (check_ipS none s).1) (check_ipS none s).2)).1 with
    | false =>
      have heq : run_once_torS args s
          = logS LogMsg.torChangeIncomplete
              (tor_change_identityS args.tor_control_password
                (logS (LogMsg.ipBefore (check_ipS none s).1) (check_ipS none s).2)).2 := by
        simp [run_once_torS, hexc, hok]
      simp only [heq]
      exact (h01.trans ((invM_tor_change args.tor_control_password) _)).trans ((invM_logS _ rfl) _)
    | true =>
      have heq : run_once_torS args s
          = tryCatchS
              (fun t =>
                logS (LogMsg.ipAfterTor
                    (check_ipS (some ("socks5h://127.0.0.1:9050", "socks5h://127.0.0.1:9050")) t).1)
                  (check_ipS (some ("socks5h://127.0.0.1:9050", "socks5h://127.0.0.1:9050")) t).2)
              (fun e t => logS (LogMsg.failedCheckTor e) t)
              (sleepS (1000 * args.wait_after_change.toNat)
                (tor_change_identityS args.tor_control_password
                  (logS (LogMsg.ipBefore (check_ipS none s).1) (check_ipS none s).2)).2) := by
        simp [run_once_torS, hexc, hok]
      simp only [heq]
      have hbody : InvM maskNoHW
          (fun t =>
            logS (LogMsg.ipAfterTor
                (check_ipS (some ("socks5h://127.0.0.1:9050", "socks5h://127.0.0.1:9050")) t).1)
              (check_ipS (some ("socks5h://127.0.0.1:9050", "socks5h://127.0.0.1:9050")) t).2) := by
        intro t
        exact ((invM_check_ipS (m := maskNoHW) _ rfl) t).trans ((invM_logS _ rfl) _)
      have hhandler : ∀ e, InvM maskNoHW (logS (LogMsg.failedCheckTor e)) :=
        fun e => invM_logS _ rfl
      exact ((h01.trans ((invM_tor_change args.tor_control_password) _)).trans
        ((invM_sleepS (m := maskNoHW) _ rfl) _)).trans
        ((invM_tryCatchS hbody hhandler) _)

theorem invM_run_once_proxy (args : Args) (purl : String) :
    InvM maskNoHW (run_once_proxyS args purl) := by
  intro s
  cases hexc : s.exc.isSome with
  | true =>
    have heq : run_once_proxyS args purl s = s := by
      simp [run_once_proxyS, hexc]
    simp only [heq]
    exact TripleAt.refl s
  | false =>
    have heq : run_once_proxyS args purl s
        = logS (LogMsg.ipViaProxy purl
              (check_ipS (some (proxy_to_requests_proxies purl))
                (sleepS (1000 * args.wait_after_change.toNat)
                  (logS (LogMsg.ipBefore (check_ipS none s).1) (check_ipS none s).2))).1)
            (check_ipS (some (proxy_to_requests_proxies purl))
              (sleepS (1000 * args.wait_after_change.toNat)
                (logS (LogMsg.ipBefore (check_ipS none s).1) (check_ipS none s).2))).2 := by
      simp [run_once_proxyS, hexc]
    simp only [heq]
    exact (((((invM_check_ipS (m := maskNoHW) none rfl) s).trans
      ((invM_logS _ rfl) _)).trans
      ((invM_sleepS (m := maskNoHW) _ rfl) _)).trans
      ((invM_check_ipS (m := maskNoHW) _ rfl) _)).trans
      ((invM_logS _ rfl) _)

theorem invM_run_once_vpn (args : Args) (cfg : String) :
    InvM maskNoHW (run_once_vpnS args cfg) := by
  intro s
  cases hexc : s.exc.isSome with
  | true =>
    have heq : run_once_vpnS args cfg s = s := by
      simp [run_once_vpnS, hexc]
    simp only [heq]
    exact TripleAt.refl s
  | false =>
    have h01 : TripleAt maskNoHW s
        (logS (LogMsg.ipBefore (check_ipS none s).1) (check_ipS none s).2) :=
      ((invM_check_ipS (m := maskNoHW) none rfl) s).trans ((invM_logS _ rfl) _)
    cases hok : (start_openvpnS cfg
        (logS (LogMsg.ipBefore (check_ipS none s).1) (check_ipS none s).2)).1 with
    | false =>
      have heq : run_once_vpnS args cfg s
          = logS LogMsg.ovpnFailedStart
              (start_openvpnS cfg
                (logS (LogMsg.ipBefore (check_ipS none s).1) (check_ipS none s).2)).2 := by
        simp [run_once_vpnS, hexc, hok]
      simp only [heq]
      exact (h01.trans ((invM_start_openvpn cfg) _)).trans ((invM_logS _ rfl) _)
    | true =>
      have heq : run_once_vpnS args cfg s
          = sleepS 2000
              (stop_processS
                (logS (LogMsg.ipAfterVpn
                    (check_ipS none
                      (sleepS (1000 * (max 5 args.wait_after_change).toNat)
                        (logS (LogMsg.sleepingForVpn (max 5 args.wait_after_change))
                          (start_openvpnS cfg
                            (logS (LogMsg.ipBefore (check_ipS none s).1)
                              (check_ipS none s).2)).2))).1)
                  (check_ipS none
                    (sleepS (1000 * (max 5 args.wait_after_change).toNat)
                      (logS (LogMsg.sleepingForVpn (max 5 args.wait_after_change))
                        (start_openvpnS cfg
                          (logS (LogMsg.ipBefore (check_ipS none s).1)
                            (check_ipS none s).2)).2))).2)) := by
        simp [run_once_vpnS, hexc, hok]
      simp only [heq]
      exact ((((((h01.trans ((invM_start_openvpn cfg) _)).trans
        ((invM_logS _ rfl) _)).trans
        ((invM_sleepS (m := maskNoHW) _ rfl) _)).trans
        ((invM_check_ipS (m := maskNoHW) none rfl) _)).trans
        ((invM_logS _ rfl) _)).trans
        (invM_stop_process _)).trans
        ((invM_sleepS (m := maskNoHW) _ rfl) _)

theorem invM_wait_aux (r : Nat) : InvM maskWaitOnly (wait_or_stopAux r) := by
  induction r with
  | zero =>
    intro s
    exact TripleAt.refl s
  | succ r ih =>
    intro s
    by_cases hp : (pollS s).1 = true
    · have heq : wait_or_stopAux (r + 1) s = (pollS s).2 := by
        simp [wait_or_stopAux, hp]
      simp only [heq]
      exact (invM_pollS (m := maskWaitOnly) (fun b => rfl)) s
    · have heq : wait_or_stopAux (r + 1) s = wait_or_stopAux r (sleepS 500 (pollS s).2) := by
        simp [wait_or_stopAux, hp]
      simp only [heq]
      exact (((invM_pollS (m := maskWaitOnly) (fun b => rfl)) s).trans
        ((invM_sleepS (m := maskWaitOnly) 500 rfl) _)).trans (ih _)

theorem maskWaitOnly_le_noH : ∀ e, maskWaitOnly e = true → maskNoH e = true := by
  intro e he
  cases e <;> simp_all [maskWaitOnly, maskNoH, isPollE, isHeaderE]

theorem maskWaitOnly_le_noHW : ∀ e, maskWaitOnly e = true → maskNoHW e = true := by
  intro e he
  cases e <;> simp_all [maskWaitOnly, maskNoHW, isPollE, isHeaderE, isWaitCallE]

theorem invM_wait (args : Args) : InvM maskNoH (wait_or_stopS args) := by
  intro s
  show TripleAt maskNoH s (wait_or_stopAux (2 * args.interval).toNat (emitS (Event.waitCall args.interval) s))
  exact (((invM_emitS (m := maskNoH) (Event.waitCall args.interval) rfl) s).trans
    (((invM_wait_aux _) _).mono maskWaitOnly_le_noH))

theorem invM_forProxies (args : Args) (l : List String) :
    InvM maskNoH (forProxiesS args l) := by
  induction l with
  | nil =>
    intro s
    exact TripleAt.refl s
  | cons purl rest ih =>
    intro s
    cases hexc : s.exc.isSome with
    | true =>
      have heq : forProxiesS args (purl :: rest) s = s := by
        simp [forProxiesS, hexc]
      simp only [heq]
      exact TripleAt.refl s
    | false =>
      by_cases hp : (pollS s).1 = true
      · have heq : forProxiesS args (purl :: rest) s = (pollS s).2 := by
          simp [forProxiesS, hexc, hp]
        simp only [heq]
        exact (invM_pollS (m := maskNoH) (fun b => rfl)) s
      · have heq : forProxiesS args (purl :: rest) s
            = forProxiesS args rest
                (wait_or_stopS args
                  (run_once_proxyS args purl (logS (LogMsg.usingProxy purl) (pollS s).2))) := by
          simp [forProxiesS, hexc, hp]
        simp only [heq]
        exact (((((invM_pollS (m := maskNoH) (fun b => rfl)) s).trans
          ((invM_logS _ rfl) _)).trans
          (((invM_run_once_proxy args purl) _).mono maskNoHW_le_noH)).trans
          ((invM_wait args) _)).trans (ih _)

theorem invM_forVpns (args : Args) (l : List String) :
    InvM maskNoH (forVpnsS args l) := by
  induction l with
  | nil =>
    intro s
    exact TripleAt.refl s
  | cons cfg rest ih =>
    intro s
    cases hexc : s.exc.isSome with
    | true =>
      have heq : forVpnsS args (cfg :: rest) s = s := by
        simp [forVpnsS, hexc]
      simp only [heq]
      exact TripleAt.refl s
    | false =>
      by_cases hp : (pollS s).1 = true
      · have heq : forVpnsS args (cfg :: rest) s = (pollS s).2 := by
          simp [forVpnsS, hexc, hp]
        simp only [heq]
        exact (invM_pollS (m := maskNoH) (fun b => rfl)) s
      · have heq : forVpnsS args (cfg :: rest) s
            = forVpnsS args rest
                (wait_or_stopS args
                  (run_once_vpnS args cfg (logS (LogMsg.usingVpnCfg cfg) (pollS s).2))) := by
          simp [forVpnsS, hexc, hp]
        simp only [heq]
        exact (((((invM_pollS (m := maskNoH) (fun b => rfl)) s).trans
          ((invM_logS _ rfl) _)).trans
          (((invM_run_once_vpn args cfg) _).mono maskNoHW_le_noH)).trans
          ((invM_wait args) _)).trans (ih _)

theorem invM_iterBody (args : Args) (proxies ovpns : List String) :
    InvM maskNoH (iterBodyS args proxies ovpns) := by
  have h1 : InvM maskNoH
      (fun s => if args.mode = "tor" ∨ args.mode = "all" then
        run_once_torS args (logS LogMsg.runningTor s) else s) :=
    InvM.ite _ (InvM.comp (invM_logS _ rfl)
      (fun s => ((invM_run_once_tor args) s).mono maskNoHW_le_noH))
  have h2 : InvM maskNoH
      (fun s => if (args.mode = "proxy" ∨ args.mode = "all") ∧ proxies ≠ [] then
        forProxiesS args proxies s else s) :=
    InvM.ite _ (invM_forProxies args proxies)
  have h3 : InvM maskNoH
      (fun s => if (args.mode = "vpn" ∨ args.mode = "all") ∧ ovpns ≠ [] then
        forVpnsS args ovpns s else s) :=
    InvM.ite _ (invM_forVpns args ovpns)
  have h4 : InvM maskNoH
      (fun s => if args.mode = "proxy" ∧ proxies = [] then
        wait_or_stopS args (logS LogMsg.noProxies s) else s) :=
    InvM.ite _ (InvM.comp (invM_logS _ rfl) (invM_wait args))
  have h5 : InvM maskNoH
      (fun s => if args.mode = "vpn" ∧ ovpns = [] then
        wait_or_stopS args (logS LogMsg.noOvpns s) else s) :=
    InvM.ite _ (InvM.comp (invM_logS _ rfl) (invM_wait args))
  intro s
  show TripleAt maskNoH s (iterBodyS args proxies ovpns s)
  exact ((((h1 s).trans (h2 _)).trans (h3 _)).trans (h4 _)).trans (h5 _)

theorem headerKey_eq_none {e : Event} (h : isHeaderE e = false) : headerKey e = none := by
  cases e with
  | log m => cases m <;> simp_all [headerKey, isHeaderE]
  | poll b => rfl
  | sleep ms => rfl
  | httpGet pr => rfl
  | controlConnect a b => rfl
  | controlSend l => rfl
  | subprocess c => rfl
  | prompt => rfl
  | procTerminate => rfl
  | procWait => rfl
  | procKill => rfl
  | waitCall i => rfl

theorem headerList_append (a b : List Event) :
    headerList (a ++ b) = headerList a ++ headerList b := by
  simp [headerList, List.filterMap_append]

theorem headerList_nil_of_noH {t : List Event} (h : ∀ e ∈ t, maskNoH e = true) :
    headerList t = [] := by
  induction t with
  | nil => rfl
  | cons e rest ih =>
    have he := h e (by simp)
    have hh : isHeaderE e = false := by
      simpa [maskNoH] using he
    show List.filterMap headerKey (e :: rest) = []
    rw [List.filterMap_cons, headerKey_eq_none hh]
    exact ih (fun x hx => h x (by simp [hx]))

theorem headerList_of_triple {s s' : S} (h : TripleAt maskNoH s s') :
    headerList s'.trace = headerList s.trace := by
  obtain ⟨_, ⟨t, ht, hm⟩, _⟩ := h
  rw [ht, headerList_append, headerList_nil_of_noH hm, List.append_nil]

theorem evCount_append (p : Event → Bool) (a b : List Event) :
    evCount p (a ++ b) = evCount p a + evCount p b := by
  simp [evCount, List.filter_append]

theorem evCount_nil_of {p m : Event → Bool} (hpm : ∀ e, m e = true → p e = false)
    {t : List Event} (h : ∀ e ∈ t, m e = true) : evCount p t = 0 := by
  induction t with
  | nil => rfl
  | cons e rest ih =>
    have hp := hpm e (h e (by simp))
    show (List.filter p (e :: rest)).length = 0
    rw [List.filter_cons_of_neg (by simp [hp])]
    exact ih (fun x hx => h x (by simp [hx]))

theorem evCount_of_triple {p m : Event → Bool} (hpm : ∀ e, m e = true → p e = false)
    {s s' : S} (h : TripleAt m s s') : evCount p s'.trace = evCount p s.trace := by
  obtain ⟨_, ⟨t, ht, hm⟩, _⟩ := h
  rw [ht, evCount_append, evCount_nil_of hpm hm, Nat.add_zero]

theorem logS_ok {s : S} (m : LogMsg) (hf : s.w.logFail s.logs = false) (he : s.exc = none) :
    logS m s = { s with logs := s.logs + 1, trace := s.trace ++ [Event.log m] } := by
  simp [logS, he, hf]

theorem pollS_fst {s : S} (he : s.exc = none) : (pollS s).1 = s.w.stop s.polls := by
  simp [pollS, he]

theorem pollS_w (s : S) : (pollS s).2.w = s.w := by
  simp only [pollS]
  split <;> rfl

theorem pollS_exc (s : S) : (pollS s).2.exc = s.exc := by
  simp only [pollS]
  split <;> rfl

theorem pollS_logs (s : S) : (pollS s).2.logs = s.logs := by
  simp only [pollS]
  split <;> rfl

theorem pollS_polls {s : S} (he : s.exc = none) : (pollS s).2.polls = s.polls + 1 := by
  simp [pollS, he]

theorem pollS_trace {s : S} (he : s.exc = none) :
    (pollS s).2.trace = s.trace ++ [Event.poll (s.w.stop s.polls)] := by
  simp [pollS, he]

theorem headerList_single (k : Nat) :
    headerList [Event.log (LogMsg.iterHeader k)] = [k] := rfl

theorem run_loopAux_some (args : Args) (P O : List String) :
    ∀ (fuel it : Nat) (s : S) (n : Nat) (s2 : S),
    noLogFail s.w → s.exc = none →
    run_loopAux args P O fuel it s = (some n, s2) →
    it ≤ n ∧ headerList s2.trace = headerList s.trace ++ List.range' (it + 1) (n - it)
      ∧ s2.w = s.w := by
  intro fuel
  induction fuel with
  | zero =>
    intro it s n s2 _ _ hrun
    simp [run_loopAux] at hrun
  | succ f ih =>
    intro it s n s2 hnl hexc hrun
    simp only [run_loopAux] at hrun
    rw [if_neg (by simp [hexc])] at hrun
    by_cases hst : (pollS s).1 = true
    · rw [if_pos hst] at hrun
      simp only [Prod.mk.injEq, Option.some.injEq] at hrun
      obtain ⟨rfl, rfl⟩ := hrun
      refine ⟨Nat.le_refl it, ?_, pollS_w s⟩
      have hp := headerList_of_triple ((invM_pollS (m := maskNoH) (fun b => rfl)) s)
      simp [hp]
    · rw [if_neg hst] at hrun
      have hpe : (pollS s).2.exc = none := by rw [pollS_exc]; exact hexc
      have hpw : (pollS s).2.w = s.w := pollS_w s
      have hlog : logS (LogMsg.iterHeader (it + 1)) (pollS s).2
          = { (pollS s).2 with
              logs := (pollS s).2.logs + 1,
              trace := (pollS s).2.trace ++ [Event.log (LogMsg.iterHeader (it + 1))] } :=
        logS_ok _ (by rw [hpw]; exact hnl _) hpe
      have h1w : (logS (LogMsg.iterHeader (it + 1)) (pollS s).2).w = s.w := by
        rw [logS_w]; exact hpw
      have h1e : (logS (LogMsg.iterHeader (it + 1)) (pollS s).2).exc = none := by
        rw [hlog]; exact hpe
      have h1hd : headerList (logS (LogMsg.iterHeader (it + 1)) (pollS s).2).trace
          = headerList s.trace ++ [it + 1] := by
        rw [hlog]
        show headerList ((pollS s).2.trace ++ [Event.log (LogMsg.iterHeader (it + 1))])
          = headerList s.trace ++ [it + 1]
        rw [headerList_append, headerList_single,
          headerList_of_triple ((invM_pollS (m := maskNoH) (fun b => rfl)) s)]
      have hB := (invM_iterBody args P O) (logS (LogMsg.iterHeader (it + 1)) (pollS s).2)
      have hBw : (iterBodyS args P O (logS (LogMsg.iterHeader (it + 1)) (pollS s).2)).w = s.w := by
        rw [hB.1, h1w]
      have hBe : (iterBodyS args P O (logS (LogMsg.iterHeader (it + 1)) (pollS s).2)).exc = none :=
        hB.2.2 (by rw [h1w]; exact hnl) h1e
      have hBhd : headerList (iterBodyS args P O
            (logS (LogMsg.iterHeader (it + 1)) (pollS s).2)).trace
          = headerList s.trace ++ [it + 1] := by
        rw [headerList_of_triple hB, h1hd]
      rw [if_neg (by simp [hBe])] at hrun
      by_cases hro : args.run_once = true
      · rw [if_pos hro] at hrun
        simp only [Prod.mk.injEq, Option.some.injEq] at hrun
        obtain ⟨rfl, rfl⟩ := hrun
        refine ⟨by omega, ?_, by rw [logS_w, hBw]⟩
        rw [headerList_of_triple ((invM_logS (m := maskNoH) LogMsg.runOnceExit rfl) _), hBhd]
        have hone : it + 1 - it = 1 := by omega
        rw [hone]
        rfl
      · rw [if_neg hro] at hrun
        by_cases hcnt : args.count ≠ 0 ∧ ((it + 1 : Nat) : Int) ≥ args.count
        · rw [if_pos hcnt] at hrun
          simp only [Prod.mk.injEq, Option.some.injEq] at hrun
          obtain ⟨rfl, rfl⟩ := hrun
          refine ⟨by omega, ?_, by rw [logS_w, hBw]⟩
          rw [headerList_of_triple
            ((invM_logS (m := maskNoH) (LogMsg.reachedCount args.count) rfl) _), hBhd]
          have hone : it + 1 - it = 1 := by omega
          rw [hone]
          rfl
        · rw [if_neg hcnt] at hrun
          obtain ⟨hle, hhd, hw2⟩ := ih (it + 1)
            (iterBodyS args P O (logS (LogMsg.iterHeader (it + 1)) (pollS s).2)) n s2
            (by rw [hBw]; exact hnl) hBe hrun
          refine ⟨by omega, ?_, by rw [hw2, hBw]⟩
          rw [hhd, hBhd]
          have hsplit : n - it = (n - (it + 1)) + 1 := by omega
          rw [hsplit, List.range'_succ]
          simp

theorem headerBody_facts (args : Args) (P O : List String) (k : Nat) (s : S)
    (hnl : noLogFail s.w) (hexc : s.exc = none) :
    (iterBodyS args P O (logS (LogMsg.iterHeader k) (pollS s).2)).exc = none
      ∧ (iterBodyS args P O (logS (LogMsg.iterHeader k) (pollS s).2)).w = s.w := by
  have hpe : (pollS s).2.exc = none := by rw [pollS_exc]; exact hexc
  have hpw : (pollS s).2.w = s.w := pollS_w s
  have h1e : (logS (LogMsg.iterHeader k) (pollS s).2).exc = none := by
    rw [logS_ok _ (by rw [hpw]; exact hnl _) hpe]
    exact hpe
  have h1w : (logS (LogMsg.iterHeader k) (pollS s).2).w = s.w := by
    rw [logS_w]; exact hpw
  have hB := (invM_iterBody args P O) (logS (LogMsg.iterHeader k) (pollS s).2)
  exact ⟨hB.2.2 (by rw [h1w]; exact hnl) h1e, by rw [hB.1, h1w]⟩

theorem run_loopAux_stop_now (args : Args) (P O : List String) (fuel it : Nat) (s : S)
    (hexc : s.exc = none) (hst : s.w.stop s.polls = true) :
    run_loopAux args P O (fuel + 1) it s = (some it, (pollS s).2) := by
  simp only [run_loopAux]
  rw [if_neg (by simp [hexc]), if_pos (by rw [pollS_fst hexc]; exact hst)]

theorem run_loopAux_run_once (args : Args) (P O : List String) (hro : args.run_once = true)
    (fuel it : Nat) (s : S) (hnl : noLogFail s.w) (hexc : s.exc = none)
    (hstop : ∀ k, s.w.stop k = false) :
    (run_loopAux args P O (fuel + 1) it s).1 = some (it + 1) := by
  simp only [run_loopAux]
  rw [if_neg (by simp [hexc]), if_neg (by rw [pollS_fst hexc]; simp [hstop])]
  obtain ⟨hBe, _⟩ := headerBody_facts args P O (it + 1) s hnl hexc
  rw [if_neg (by simp [hBe]), if_pos hro]

theorem run_loopAux_count (args : Args) (P O : List String) (hro : args.run_once = false)
    (hc : 0 < args.count) :
    ∀ (fuel it : Nat) (s : S), noLogFail s.w → s.exc = none →
    (∀ k, s.w.stop k = false) → (it : Int) < args.count → args.count.toNat ≤ fuel + it →
    (run_loopAux args P O fuel it s).1 = some args.count.toNat := by
  intro fuel
  induction fuel with
  | zero =>
    intro it s _ _ _ hlt hle
    exfalso
    omega
  | succ f ih =>
    intro it s hnl hexc hstop hlt hle
    simp only [run_loopAux]
    rw [if_neg (by simp [hexc]), if_neg (by rw [pollS_fst hexc]; simp [hstop])]
    obtain ⟨hBe, hBw⟩ := headerBody_facts args P O (it + 1) s hnl hexc
    rw [if_neg (by simp [hBe]), if_neg (by simp [hro])]
    by_cases hreach : args.count ≠ 0 ∧ ((it + 1 : Nat) : Int) ≥ args.count
    · rw [if_pos hreach]
      show some (it + 1) = some args.count.toNat
      have : it + 1 = args.count.toNat := by
        have h2 := hreach.2
        omega
      rw [this]
    · rw [if_neg hreach]
      have hlt' : ((it + 1 : Nat) : Int) < args.count := by
        rcases not_and_or.1 hreach with h | h
        · exact absurd (by omega : args.count ≠ 0) h
        · omega
      exact ih (it + 1) _ (by rw [hBw]; exact hnl) hBe
        (by rw [hBw]; exact hstop) hlt' (by omega)

theorem run_loopAux_unbounded (args : Args) (P O : List String) (hro : args.run_once = false)
    (hc : args.count = 0) :
    ∀ (fuel it : Nat) (s : S), noLogFail s.w → s.exc = none →
    (∀ k, s.w.stop k = false) →
    (run_loopAux args P O fuel it s).1 = none := by
  intro fuel
  induction fuel with
  | zero =>
    intro it s _ _ _
    simp [run_loopAux]
  | succ f ih =>
    intro it s hnl hexc hstop
    simp only [run_loopAux]
    rw [if_neg (by simp [hexc]), if_neg (by rw [pollS_fst hexc]; simp [hstop])]
    obtain ⟨hBe, hBw⟩ := headerBody_facts args P O (it + 1) s hnl hexc
    rw [if_neg (by simp [hBe]), if_neg (by simp [hro]), if_neg (by simp [hc])]
    exact ih (it + 1) _ (by rw [hBw]; exact hnl) hBe (by rw [hBw]; exact hstop)

theorem wait_aux_stop_now (r : Nat) (s : S) (hexc : s.exc = none)
    (hst : s.w.stop s.polls = true) :
    wait_or_stopAux (r + 1) s = (pollS s).2 := by
  simp only [wait_or_stopAux]
  rw [if_pos (by rw [pollS_fst hexc]; exact hst)]

theorem forProxies_cancelled (args : Args) (p : String) (rest : List String) (s : S)
    (hexc : s.exc = none) (hst : s.w.stop s.polls = true) :
    forProxiesS args (p :: rest) s = (pollS s).2 := by
  simp only [forProxiesS]
  rw [if_neg (by simp [hexc]), if_pos (by rw [pollS_fst hexc]; exact hst)]

theorem forProxies_step (args : Args) (p : String) (rest : List String) (s : S)
    (hexc : s.exc = none) (hst : s.w.stop s.polls = false) :
    forProxiesS args (p :: rest) s
      = forProxiesS args rest
          (wait_or_stopS args (run_once_proxyS args p (logS (LogMsg.usingProxy p) (pollS s).2))) := by
  simp only [forProxiesS]
  rw [if_neg (by simp [hexc]), if_neg (by rw [pollS_fst hexc]; simp [hst])]

theorem forVpns_step (args : Args) (cfg : String) (rest : List String) (s : S)
    (hexc : s.exc = none) (hst : s.w.stop s.polls = false) :
    forVpnsS args (cfg :: rest) s
      = forVpnsS args rest
          (wait_or_stopS args (run_once_vpnS args cfg (logS (LogMsg.usingVpnCfg cfg) (pollS s).2))) := by
  simp only [forVpnsS]
  rw [if_neg (by simp [hexc]), if_neg (by rw [pollS_fst hexc]; simp [hst])]

theorem iterBody_tor_eq (args : Args) (P O : List String) (s : S) (hm : args.mode = "tor") :
    iterBodyS args P O s = run_once_torS args (logS LogMsg.runningTor s) := by
  simp [iterBodyS, hm]

theorem maskNoHW_no_wait : ∀ e, maskNoHW e = true → isWaitCallE e = false := by
  intro e he
  simp [maskNoHW] at he
  exact he.2

theorem iterBody_tor_no_wait (args : Args) (P O : List String) (s : S)
    (hm : args.mode = "tor") :
    evCount isWaitCallE (iterBodyS args P O s).trace = evCount isWaitCallE s.trace := by
  rw [iterBody_tor_eq args P O s hm]
  have htr : TripleAt maskNoHW s (run_once_torS args (logS LogMsg.runningTor s)) :=
    ((invM_logS (m := maskNoHW) LogMsg.runningTor rfl) s).trans ((invM_run_once_tor args) _)
  exact evCount_of_triple maskNoHW_no_wait htr

theorem mem_of_triple {m : Event → Bool} {s s' : S} (h : TripleAt m s s')
    {e : Event} (he : e ∈ s.trace) : e ∈ s'.trace := by
  obtain ⟨_, ⟨t, ht, _⟩, _⟩ := h
  rw [ht]
  exact List.mem_append_left _ he

theorem mainS_prep_proxy_error (args : Args) (fuel : Nat) (w : World) (path e : String)
    (hnl : noLogFail w) (hpl : args.proxy_list = some path) (hpf : w.proxyFile = Except.error e) :
    (mainS args fuel w).2.exc = some e
      ∧ Event.log (LogMsg.fatal e) ∈ (mainS args fuel w).2.trace
      ∧ headerList (mainS args fuel w).2.trace = []
      ∧ Event.log LogMsg.finished ∉ (mainS args fuel w).2.trace := by
  have hnl' : ∀ k, w.logFail k = false := hnl
  cases hdr : args.dry_run with
  | false =>
    refine ⟨?_, ?_, ?_, ?_⟩ <;>
      simp [mainS, run_loopS, logS, raiseS, S.init, hnl', hpl, hpf, hdr,
        headerList, headerKey]
  | true =>
    refine ⟨?_, ?_, ?_, ?_⟩ <;>
      simp [mainS, run_loopS, logS, raiseS, S.init, hnl', hpl, hpf, hdr,
        headerList, headerKey]

theorem mainS_prep_ovpn_error (args : Args) (fuel : Nat) (w : World) (dir e : String)
    (hnl : noLogFail w) (hpl : args.proxy_list = none) (hod : args.ovpn_dir = some dir)
    (hoe : w.ovpnEntries = Except.error e) :
    (mainS args fuel w).2.exc = some e
      ∧ Event.log (LogMsg.fatal e) ∈ (mainS args fuel w).2.trace
      ∧ headerList (mainS args fuel w).2.trace = []
      ∧ Event.log LogMsg.finished ∉ (mainS args fuel w).2.trace := by
  have hnl' : ∀ k, w.logFail k = false := hnl
  cases hdr : args.dry_run with
  | false =>
    refine ⟨?_, ?_, ?_, ?_⟩ <;>
      simp [mainS, run_loopS, logS, raiseS, S.init, hnl', hpl, hod, hoe, hdr,
        headerList, headerKey]
  | true =>
    refine ⟨?_, ?_, ?_, ?_⟩ <;>
      simp [mainS, run_loopS, logS, raiseS, S.init, hnl', hpl, hod, hoe, hdr,
        headerList, headerKey]

theorem iterBody_proxy_empty (args : Args) (O : List String) (s : S)
    (hm : args.mode = "proxy") :
    iterBodyS args [] O s = wait_or_stopS args (logS LogMsg.noProxies s) := by
  simp [iterBodyS, hm]

theorem run_loopS_empty_proxy_idles (args : Args) (fuel : Nat) (s : S) (path : String)
    (fileLines : List String)
    (hnl : noLogFail s.w) (hexc : s.exc = none) (hstop : ∀ k, s.w.stop k = false)
    (hm : args.mode = "proxy") (hro : args.run_once = true)
    (hpl : args.proxy_list = some path) (hov : args.ovpn_dir = none)
    (hpf : s.w.proxyFile = Except.ok fileLines)
    (hempty : load_proxy_list fileLines = []) :
    (run_loopS args (fuel + 1) s).2.exc = none
      ∧ Event.log LogMsg.noProxies ∈ (run_loopS args (fuel + 1) s).2.trace
      ∧ Event.log LogMsg.finished ∈ (run_loopS args (fuel + 1) s).2.trace
      ∧ (run_loopS args (fuel + 1) s).1 = some 1 := by
  have hAeq : logS (LogMsg.loadedProxies 0 path) s
      = { s with logs := s.logs + 1,
                 trace := s.trace ++
                   [Event.log (LogMsg.loadedProxies 0 path)] } :=
    logS_ok _ (hnl _) hexc
  have hAexc : (logS (LogMsg.loadedProxies 0 path) s).exc
      = none := by
    rw [hAeq]
    exact hexc
  have hAw : (logS (LogMsg.loadedProxies 0 path) s).w = s.w :=
    logS_w _ _
  set sA := logS (LogMsg.loadedProxies 0 path) s with hsA
  obtain ⟨hBexc, hBw⟩ := headerBody_facts args [] [] 1 sA
    (by rw [hAw]; exact hnl) hAexc
  have hrA : run_loopAux args [] [] (fuel + 1) 0 sA
      = (some 1, logS LogMsg.runOnceExit
          (iterBodyS args [] [] (logS (LogMsg.iterHeader 1) (pollS sA).2))) := by
    simp only [run_loopAux]
    rw [if_neg (by simp [hAexc]),
      if_neg (by rw [pollS_fst hAexc, hAw]; simp [hstop]),
      if_neg (by simp [hBexc]), if_pos hro]
  have hrunS : run_loopS args (fuel + 1) s
      = (some 1, logS LogMsg.finished
          (logS LogMsg.runOnceExit
            (iterBodyS args [] [] (logS (LogMsg.iterHeader 1) (pollS sA).2)))) := by
    simp only [run_loopS, hpl, hpf, hempty, hov, List.length_nil]
    rw [← hsA]
    rw [if_neg (by simp [hAexc]), if_neg (by simp [hAexc])]
    rw [hrA]
  rw [hrunS]
  -- facts about the state after the noProxies log
  have hXexc : (logS (LogMsg.iterHeader 1) (pollS sA).2).exc = none := by
    rw [logS_ok _ (by rw [pollS_w, hAw]; exact hnl _) (by rw [pollS_exc]; exact hAexc)]
    rw [pollS_exc]
    exact hAexc
  have hXw : (logS (LogMsg.iterHeader 1) (pollS sA).2).w = s.w := by
    rw [logS_w, pollS_w, hAw]
  have hnpr : iterBodyS args [] [] (logS (LogMsg.iterHeader 1) (pollS sA).2)
      = wait_or_stopS args (logS LogMsg.noProxies (logS (LogMsg.iterHeader 1) (pollS sA).2)) :=
    iterBody_proxy_empty args [] _ hm
  have hmem1 : Event.log LogMsg.noProxies
      ∈ (logS LogMsg.noProxies (logS (LogMsg.iterHeader 1) (pollS sA).2)).trace := by
    rw [logS_ok _ (by rw [hXw]; exact hnl _) hXexc]
    simp
  have hmem2 : Event.log LogMsg.noProxies
      ∈ (iterBodyS args [] [] (logS (LogMsg.iterHeader 1) (pollS sA).2)).trace := by
    rw [hnpr]
    exact mem_of_triple ((invM_wait args) _) hmem1
  have hBw' : (iterBodyS args [] [] (logS (LogMsg.iterHeader 1) (pollS sA).2)).w = s.w := by
    rw [hBw, hAw]
  have hYeq : logS LogMsg.runOnceExit
      (iterBodyS args [] [] (logS (LogMsg.iterHeader 1) (pollS sA).2))
      = { iterBodyS args [] [] (logS (LogMsg.iterHeader 1) (pollS sA).2) with
          logs := (iterBodyS args [] [] (logS (LogMsg.iterHeader 1) (pollS sA).2)).logs + 1,
          trace := (iterBodyS args [] [] (logS (LogMsg.iterHeader 1) (pollS sA).2)).trace ++
            [Event.log LogMsg.runOnceExit] } :=
    logS_ok _ (by rw [hBw']; exact hnl _) hBexc
  have hYexc : (logS LogMsg.runOnceExit
      (iterBodyS args [] [] (logS (LogMsg.iterHeader 1) (pollS sA).2))).exc = none := by
    rw [hYeq]
    exact hBexc
  have hYw : (logS LogMsg.runOnceExit
      (iterBodyS args [] [] (logS (LogMsg.iterHeader 1) (pollS sA).2))).w = s.w := by
    rw [logS_w]
    exact hBw'
  have hZeq := logS_ok (s := logS LogMsg.runOnceExit
      (iterBodyS args [] [] (logS (LogMsg.iterHeader 1) (pollS sA).2)))
    LogMsg.finished (by rw [hYw]; exact hnl _) hYexc
  refine ⟨?_, ?_, ?_, rfl⟩
  · show (logS LogMsg.finished _).exc = none
    rw [hZeq]
    exact hYexc
  · exact mem_of_triple ((invM_logS (m := maskNoH) LogMsg.finished rfl) _)
      (mem_of_triple ((invM_logS (m := maskNoH) LogMsg.runOnceExit rfl) _) hmem2)
  · show Event.log LogMsg.finished ∈ (logS LogMsg.finished _).trace
    rw [hZeq]
    simp

/-- C1: in dry-run mode the orchestrator still performs the real external
actions: with `--mode tor --run-once --dry-run` and a responsive control
port, the run logs the dry-run banner yet opens the Tor control socket
(an external action), because `run_loop` never consults `dry_run`. -/
theorem c1_dry_run_ignored :
    c1Args.dry_run = true
      ∧ Event.log LogMsg.dryRunEnabled ∈ (mainS c1Args 1 wOK).2.trace
      ∧ Event.controlConnect "127.0.0.1" 9051 ∈ (mainS c1Args 1 wOK).2.trace
      ∧ 0 < evCount isExternalE (mainS c1Args 1 wOK).2.trace := by
  decide

theorem maskCtl_no_subproc : ∀ e, maskCtl e = true → isSubprocE e = false := by
  intro e he
  cases e <;> simp_all [maskCtl, isSubprocE, isHeaderE, isWaitCallE, isPromptE]

theorem maskCtl_no_prompt : ∀ e, maskCtl e = true → isPromptE e = false := by
  intro e he
  cases e <;> simp_all [maskCtl, isSubprocE, isHeaderE, isWaitCallE, isPromptE]

/-- C2: a failing Tor control-port attempt only reports failure: the
control-port function launches no subprocess and shows no prompt (first
conjunct, in fact unconditionally), and the service-restart fallback is
invoked only by its caller `tor_change_identity` as a separate decision
taken on the reported result: on success it just logs, on failure it logs
and then calls the fallback. -/
theorem c2_control_port_failure_isolated :
    (∀ (host : String) (port : Nat) (pw : Option String) (s : S),
        evCount isSubprocE (tor_newnym_via_controlS host port pw s).2.trace
            = evCount isSubprocE s.trace
          ∧ evCount isPromptE (tor_newnym_via_controlS host port pw s).2.trace
            = evCount isPromptE s.trace)
      ∧ (∀ (pw : Option String) (s : S), s.exc = none →
          ((tor_newnym_via_controlS "127.0.0.1" 9051 pw s).1 = true →
            tor_change_identityS pw s
              = (true, logS LogMsg.requestedNewnym
                  (tor_newnym_via_controlS "127.0.0.1" 9051 pw s).2))
          ∧ ((tor_newnym_via_controlS "127.0.0.1" 9051 pw s).1 = false →
            tor_change_identityS pw s
              = tor_reload_serviceS
                  (logS LogMsg.fallbackRestart
                    (tor_newnym_via_controlS "127.0.0.1" 9051 pw s).2))) := by
  constructor
  · intro host port pw s
    have ht := (invM_tor_newnym host port pw) s
    exact ⟨evCount_of_triple maskCtl_no_subproc ht, evCount_of_triple maskCtl_no_prompt ht⟩
  · intro pw s hexc
    constructor
    · intro hok
      simp [tor_change_identityS, hexc, hok]
    · intro hok
      simp [tor_change_identityS, hexc, hok]

/-- C2 witness: with the control connection refused, the control-port
attempt reports `false` and the caller then invokes the fallback. -/
theorem c2_witness :
    (tor_newnym_via_controlS "127.0.0.1" 9051 none (S.init wConnFail)).1 = false
      ∧ tor_change_identityS none (S.init wConnFail)
          = tor_reload_serviceS
              (logS LogMsg.fallbackRestart
                (tor_newnym_via_controlS "127.0.0.1" 9051 none (S.init wConnFail)).2) := by
  refine ⟨by decide, ?_⟩
  exact (c2_control_port_failure_isolated.2 none (S.init wConnFail) rfl).2 (by decide)

/-- C3: per pass the iteration counter grows by exactly one - on any exit
with counter `n` the logged iteration headers extend the previous ones by
exactly `it+1, it+2, ..., n` (so the count is monotone and gap-free); the
loop stops immediately at a set cancellation flag; with the flag never set
it stops after exactly one more iteration when `run_once` is set (any
bounded count); with `run_once` unset and count `N > 0` it stops at exactly
counter `N`; with count `0` and `run_once` unset it never stops. -/
theorem c3_loop_count_invariant :
    (∀ (args : Args) (P O : List String) (fuel it n : Nat) (s s2 : S),
        noLogFail s.w → s.exc = none →
        run_loopAux args P O fuel it s = (some n, s2) →
        it ≤ n ∧ headerList s2.trace = headerList s.trace ++ List.range' (it + 1) (n - it))
      ∧ (∀ (args : Args) (P O : List String) (fuel it : Nat) (s : S),
          s.exc = none → s.w.stop s.polls = true →
          run_loopAux args P O (fuel + 1) it s = (some it, (pollS s).2))
      ∧ (∀ (args : Args) (P O : List String) (fuel it : Nat) (s : S),
          noLogFail s.w → s.exc = none → (∀ k, s.w.stop k = false) →
          args.run_once = true →
          (run_loopAux args P O (fuel + 1) it s).1 = some (it + 1))
      ∧ (∀ (args : Args) (P O : List String) (fuel it : Nat) (s : S),
          noLogFail s.w → s.exc = none → (∀ k, s.w.stop k = false) →
          args.run_once = false → 0 < args.count → (it : Int) < args.count →
          args.count.toNat ≤ fuel + it →
          (run_loopAux args P O fuel it s).1 = some args.count.toNat)
      ∧ (∀ (args : Args) (P O : List String) (fuel it : Nat) (s : S),
          noLogFail s.w → s.exc = none → (∀ k, s.w.stop k = false) →
          args.run_once = false → args.count = 0 →
          (run_loopAux args P O fuel it s).1 = none) := by
  refine ⟨?_, ?_, ?_, ?_, ?_⟩
  · intro args P O fuel it n s s2 hnl hexc hrun
    obtain ⟨h1, h2, _⟩ := run_loopAux_some args P O fuel it s n s2 hnl hexc hrun
    exact ⟨h1, h2⟩
  · intro args P O fuel it s hexc hst
    exact run_loopAux_stop_now args P O fuel it s hexc hst
  · intro args P O fuel it s hnl hexc hstop hro
    exact run_loopAux_run_once args P O hro fuel it s hnl hexc hstop
  · intro args P O fuel it s hnl hexc hstop hro hc hlt hle
    exact run_loopAux_count args P O hro hc fuel it s hnl hexc hstop hlt hle
  · intro args P O fuel it s hnl hexc hstop hro hc
    exact run_loopAux_unbounded args P O hro hc fuel it s hnl hexc hstop

/-- C3 witness: a run-once Tor run completes exactly one iteration. -/
theorem c3_witness :
    (run_loopAux c1Args [] [] 1 0 (S.init wOK)).1 = some 1 :=
  c3_loop_count_invariant.2.2.1 c1Args [] [] 0 0 (S.init wOK)
    (fun _ => rfl) rfl (fun _ => rfl) rfl

/-- C4 counterexample: the claim says every wait of the orchestrator polls
the flag at least once per second, so no uninterrupted sleep may exceed
1000 ms; but the bounded Tor run performs the post-change settle wait as a
plain 5000 ms sleep with no poll. -/
theorem c4_settle_sleep_unpolled :
    ¬ (∀ e ∈ (mainS c5Args 3 wOK).2.trace, sleepDur e ≤ 1000) := by
  decide

/-- C4 (amended): the inter-cycle wait helper `_wait_or_stop` emits only
flag polls and 500 ms sleeps; if the flag is already set when a wait slice
begins, the wait returns right after that single poll with no further
sleep; and with the flag set, the proxy loop exits at its head poll
without invoking any adapter.  (Settle waits are plain sleeps and are not
covered - see the counterexample.) -/
theorem c4_wait_polling :
    (∀ (r : Nat) (s : S), ∃ t, (wait_or_stopAux r s).trace = s.trace ++ t
        ∧ ∀ e ∈ t, (isPollE e || e == Event.sleep 500) = true)
      ∧ (∀ (r : Nat) (s : S), s.exc = none → s.w.stop s.polls = true →
          wait_or_stopAux (r + 1) s = (pollS s).2
            ∧ (pollS s).2.trace = s.trace ++ [Event.poll true])
      ∧ (∀ (args : Args) (p : String) (rest : List String) (s : S),
          s.exc = none → (∀ k, s.w.stop k = true) →
          forProxiesS args (p :: rest) s = (pollS s).2
            ∧ (pollS s).2.trace = s.trace ++ [Event.poll true]) := by
  refine ⟨?_, ?_, ?_⟩
  · intro r s
    obtain ⟨t, ht, hm⟩ := ((invM_wait_aux r) s).2.1
    exact ⟨t, ht, fun e he => hm e he⟩
  · intro r s hexc hst
    refine ⟨wait_aux_stop_now r s hexc hst, ?_⟩
    rw [pollS_trace hexc, hst]
  · intro args p rest s hexc hstop
    refine ⟨forProxies_cancelled args p rest s hexc (hstop _), ?_⟩
    rw [pollS_trace hexc, hstop]

/-- C4 witness: with the flag already set, one wait slice is a single
poll and an immediate return. -/
theorem c4_witness :
    wait_or_stopAux 1 (S.init wStopTrue) = (pollS (S.init wStopTrue)).2
      ∧ (pollS (S.init wStopTrue)).2.trace = [Event.poll true] :=
  c4_wait_polling.2.1 0 (S.init wStopTrue) rfl rfl

/-- C5 counterexample: in Tor mode the adapter invocation is not followed
by an inter-cycle wait: the bounded `--mode tor --count 2` run performs
two identity changes (two control connections) and never enters
`_wait_or_stop` at all, so the second change begins with no wait after the
first. -/
theorem c5_tor_lacks_intercycle_wait :
    changeThenWaitOk (mainS c5Args 3 wOK).2.trace false = false
      ∧ evCount isControlConnectE (mainS c5Args 3 wOK).2.trace = 2
      ∧ evCount isWaitCallE (mainS c5Args 3 wOK).2.trace = 0 := by
  refine ⟨?_, ?_, ?_⟩ <;> decide

/-- C5 (amended): in proxy and VPN modes each adapter invocation is
followed by the inter-cycle wait before the next endpoint or profile is
taken up (first two conjuncts), while the Tor step of an iteration never
enters the inter-cycle wait (third conjunct). -/
theorem c5_proxy_vpn_wait_after_each :
    (∀ (args : Args) (p : String) (rest : List String) (s : S),
        s.exc = none → s.w.stop s.polls = false →
        forProxiesS args (p :: rest) s
          = forProxiesS args rest
              (wait_or_stopS args
                (run_once_proxyS args p (logS (LogMsg.usingProxy p) (pollS s).2))))
      ∧ (∀ (args : Args) (cfg : String) (rest : List String) (s : S),
          s.exc = none → s.w.stop s.polls = false →
          forVpnsS args (cfg :: rest) s
            = forVpnsS args rest
                (wait_or_stopS args
                  (run_once_vpnS args cfg (logS (LogMsg.usingVpnCfg cfg) (pollS s).2))))
      ∧ (∀ (args : Args) (P O : List String) (s : S), args.mode = "tor" →
          evCount isWaitCallE (iterBodyS args P O s).trace
            = evCount isWaitCallE s.trace) := by
  refine ⟨?_, ?_, ?_⟩
  · intro args p rest s hexc hst
    exact forProxies_step args p rest s hexc hst
  · intro args cfg rest s hexc hst
    exact forVpns_step args cfg rest s hexc hst
  · intro args P O s hm
    exact iterBody_tor_no_wait args P O s hm

/-- C5 witness: one proxy endpoint is processed and the inter-cycle wait
is entered before the (empty) remainder of the list. -/
theorem c5_witness :
    forProxiesS c5Args ["http://p1:8080"] (S.init wOK)
      = forProxiesS c5Args []
          (wait_or_stopS c5Args
            (run_once_proxyS c5Args "http://p1:8080"
              (logS (LogMsg.usingProxy "http://p1:8080") (pollS (S.init wOK)).2))) :=
  c5_proxy_vpn_wait_after_each.1 c5Args "http://p1:8080" [] (S.init wOK) rfl rfl

/-- C6 counterexample: with a successfully started VPN subprocess and a
log write that raises at the `IP after VPN:` line, the cycle ends with an
exception pending and the teardown is skipped entirely: the trace has the
subprocess start but neither a terminate nor a kill (there is no
`try/finally` in `run_once_vpn`). -/
theorem c6_teardown_skipped_on_log_error :
    evCount isSubprocE (run_once_vpnS c6Args "client.ovpn" (S.init wC6)).trace = 1
      ∧ evCount isTerminateE (run_once_vpnS c6Args "client.ovpn" (S.init wC6)).trace = 0
      ∧ evCount isKillE (run_once_vpnS c6Args "client.ovpn" (S.init wC6)).trace = 0
      ∧ (run_once_vpnS c6Args "client.ovpn" (S.init wC6)).exc.isSome = true := by
  refine ⟨?_, ?_, ?_, ?_⟩ <;> decide

/-- C6 (amended): on every VPN cycle in which the subprocess starts and no
step raises (log writes succeed), the teardown runs on completion of the
cycle - exactly one terminate is emitted, the cycle ends without a pending
exception, and if the bounded wait times out the force-kill is emitted -
this holds whatever the probe returns, since the probe folds transport
failures into an error string instead of raising. -/
theorem c6_teardown_on_exceptionless_paths :
    ∀ (args : Args) (cfg : String) (s : S),
      noLogFail s.w → s.exc = none → s.w.vpnStart s.vpns = VpnStartOutcome.started →
      evCount isTerminateE (run_once_vpnS args cfg s).trace
          = evCount isTerminateE s.trace + 1
        ∧ (run_once_vpnS args cfg s).exc = none
        ∧ (s.w.vpnStop s.vstops = VpnStopOutcome.timeout →
            evCount isKillE (run_once_vpnS args cfg s).trace
              = evCount isKillE s.trace + 1) := by
  intro args cfg s hnl hexc hv
  have hnl' : ∀ k, s.w.logFail k = false := hnl
  cases hstop : s.w.vpnStop s.vstops with
  | terminated =>
    refine ⟨?_, ?_, ?_⟩
    · simp [run_once_vpnS, check_ipS, logS, emitS, stepS, sleepS, start_openvpnS,
        stop_processS, tryCatchS, raiseS, hexc, hnl', hv, hstop, evCount,
        List.filter_append, isTerminateE]
    · simp [run_once_vpnS, check_ipS, logS, emitS, stepS, sleepS, start_openvpnS,
        stop_processS, tryCatchS, raiseS, hexc, hnl', hv, hstop]
    · intro htm
      exact absurd htm (by simp)
  | timeout =>
    refine ⟨?_, ?_, ?_⟩
    · simp [run_once_vpnS, check_ipS, logS, emitS, stepS, sleepS, start_openvpnS,
        stop_processS, tryCatchS, raiseS, hexc, hnl', hv, hstop, evCount,
        List.filter_append, isTerminateE]
    · simp [run_once_vpnS, check_ipS, logS, emitS, stepS, sleepS, start_openvpnS,
        stop_processS, tryCatchS, raiseS, hexc, hnl', hv, hstop]
    · intro _
      simp [run_once_vpnS, check_ipS, logS, emitS, stepS, sleepS, start_openvpnS,
        stop_processS, tryCatchS, raiseS, hexc, hnl', hv, hstop, evCount,
        List.filter_append, isKillE]

/-- C6 witness: with a successful start and clean teardown, exactly one
terminate is emitted and the cycle ends without an exception. -/
theorem c6_witness :
    evCount isTerminateE (run_once_vpnS c6Args "client.ovpn" (S.init wVpnOk)).trace = 1
      ∧ (run_once_vpnS c6Args "client.ovpn" (S.init wVpnOk)).exc = none := by
  have h := c6_teardown_on_exceptionless_paths c6Args "client.ovpn" (S.init wVpnOk)
    (fun _ => rfl) rfl rfl
  exact ⟨h.1, h.2.1⟩

/-- C7: the IP probe is total: for every `requests.get` outcome it returns
either the stripped response text or the string `ERROR: <cause>`, and its
orchestrator-side wrapper never changes the pending-exception state - all
transport failures are folded into the returned string. -/
theorem c7_probe_never_raises :
    (∀ r : Except String String,
        (∃ b, r = Except.ok b ∧ check_ip r = pyStrip b)
          ∨ (∃ e, r = Except.error e ∧ check_ip r = "ERROR: " ++ e))
      ∧ (∀ (pr : Option (String × String)) (s : S), (check_ipS pr s).2.exc = s.exc) := by
  constructor
  · intro r
    cases r with
    | ok b => exact Or.inl ⟨b, rfl, rfl⟩
    | error e => exact Or.inr ⟨e, rfl, rfl⟩
  · intro pr s
    simp only [check_ipS]
    split <;> rfl

/-- C8: every entry of the parsed proxy list is non-blank and does not
start with `#`, and the parsed list is an order-preserving sublist of the
stripped file lines - the endpoints appear in file order. -/
theorem c8_proxy_list_filtered_ordered :
    ∀ lines : List String,
      (∀ s ∈ load_proxy_list lines, s ≠ "" ∧ pyStartsWith s "#" = false)
        ∧ List.Sublist (load_proxy_list lines) (lines.map pyStrip) := by
  intro lines
  induction lines with
  | nil =>
    constructor
    · intro s hs
      simp [load_proxy_list] at hs
    · simp [load_proxy_list]
  | cons l rest ih =>
    by_cases hk : pyStrip l = "" ∨ pyStartsWith (pyStrip l) "#" = true
    · have heq : load_proxy_list (l :: rest) = load_proxy_list rest := by
        simp [load_proxy_list, hk]
      constructor
      · rw [heq]
        exact ih.1
      · rw [heq, List.map_cons]
        exact ih.2.cons (pyStrip l)
    · have heq : load_proxy_list (l :: rest) = pyStrip l :: load_proxy_list rest := by
        simp [load_proxy_list, hk]
      obtain ⟨hne, hhash⟩ := not_or.1 hk
      constructor
      · rw [heq]
        intro s hs
        rcases List.mem_cons.1 hs with rfl | hs'
        · exact ⟨hne, by simpa using hhash⟩
        · exact ih.1 s hs'
      · rw [heq, List.map_cons]
        exact ih.2.cons₂ (pyStrip l)

/-- C8 witness: on a file with one commented-out line and one padded
endpoint line, the parsed entry is non-blank, not a comment, and the list
is a sublist of the stripped lines. -/
theorem c8_witness :
    ("a" ≠ "" ∧ pyStartsWith "a" "#" = false)
      ∧ List.Sublist (load_proxy_list [" a ", "# b", ""]) ([" a ", "# b", ""].map pyStrip) :=
  ⟨(c8_proxy_list_filtered_ordered [" a ", "# b", ""]).1 "a" (by decide),
   (c8_proxy_list_filtered_ordered [" a ", "# b", ""]).2⟩

/-- C9 counterexample: duplicates are not filtered during parsing - a file
whose two lines are the same endpoint yields that endpoint twice, so "each
endpoint string appears at most once" fails. -/
theorem c9_duplicates_not_filtered :
    ¬ ((load_proxy_list ["http://p:8080", "http://p:8080"]).count "http://p:8080" ≤ 1) := by
  decide

/-- C9 (amended): parsing preserves multiplicity: every endpoint that is
non-blank and not a comment occurs in the parsed list exactly as often as
it occurs among the stripped file lines; a repeated line therefore appears
once per occurrence. -/
theorem c9_multiplicity_preserved :
    ∀ (lines : List String) (s : String), s ≠ "" → pyStartsWith s "#" = false →
      (load_proxy_list lines).count s = (lines.map pyStrip).count s := by
  intro lines s h1 h2
  induction lines with
  | nil => rfl
  | cons l rest ih =>
    by_cases hk : pyStrip l = "" ∨ pyStartsWith (pyStrip l) "#" = true
    · have heq : load_proxy_list (l :: rest) = load_proxy_list rest := by
        simp [load_proxy_list, hk]
      have hne : pyStrip l ≠ s := by
        intro hcontra
        rcases hk with hk | hk
        · exact h1 (hcontra ▸ hk)
        · exact absurd (hcontra ▸ hk) (by simp [h2])
      rw [heq, List.map_cons, List.count_cons]
      simp [ih, beq_iff_eq, hne]
    · have heq : load_proxy_list (l :: rest) = pyStrip l :: load_proxy_list rest := by
        simp [load_proxy_list, hk]
      rw [heq, List.map_cons, List.count_cons, List.count_cons]
      simp [ih]

/-- C9 witness: the duplicated endpoint line appears twice in the parsed
list, matching its multiplicity among the file lines. -/
theorem c9_witness :
    (load_proxy_list ["http://p:8080", "http://p:8080"]).count "http://p:8080" = 2 := by
  have h := c9_multiplicity_preserved ["http://p:8080", "http://p:8080"] "http://p:8080"
    (by decide) (by decide)
  rw [h]
  decide

/-- C10: an error while preparing the lists is fatal, not idling: if the
proxy-list file (first conjunct) or the VPN directory listing (second
conjunct, with no proxy list configured) raises, the exception propagates
out of `run_loop`, the run ends with that exception pending after a
top-level `Fatal error:` log, and no iteration is ever logged and no
`AutoChanger finished.` line is written; whereas a readable proxy file
whose parsed list is empty (third conjunct) leaves the orchestrator
running normally: it logs `No proxies provided; sleeping.`, idles, and a
run-once pass finishes cleanly with no exception. -/
theorem c10_prep_errors_fatal :
    (∀ (args : Args) (fuel : Nat) (w : World) (path e : String),
        noLogFail w → args.proxy_list = some path → w.proxyFile = Except.error e →
        (mainS args fuel w).2.exc = some e
          ∧ Event.log (LogMsg.fatal e) ∈ (mainS args fuel w).2.trace
          ∧ headerList (mainS args fuel w).2.trace = []
          ∧ Event.log LogMsg.finished ∉ (mainS args fuel w).2.trace)
      ∧ (∀ (args : Args) (fuel : Nat) (w : World) (dir e : String),
          noLogFail w → args.proxy_list = none → args.ovpn_dir = some dir →
          w.ovpnEntries = Except.error e →
          (mainS args fuel w).2.exc = some e
            ∧ Event.log (LogMsg.fatal e) ∈ (mainS args fuel w).2.trace
            ∧ headerList (mainS args fuel w).2.trace = []
            ∧ Event.log LogMsg.finished ∉ (mainS args fuel w).2.trace)
      ∧ (∀ (args : Args) (fuel : Nat) (s : S) (path : String) (fileLines : List String),
          noLogFail s.w → s.exc = none → (∀ k, s.w.stop k = false) →
          args.mode = "proxy" → args.run_once = true →
          args.proxy_list = some path → args.ovpn_dir = none →
          s.w.proxyFile = Except.ok fileLines → load_proxy_list fileLines = [] →
          (run_loopS args (fuel + 1) s).2.exc = none
            ∧ Event.log LogMsg.noProxies ∈ (run_loopS args (fuel + 1) s).2.trace
            ∧ Event.log LogMsg.finished ∈ (run_loopS args (fuel + 1) s).2.trace
            ∧ (run_loopS args (fuel + 1) s).1 = some 1) := by
  refine ⟨?_, ?_, ?_⟩
  · intro args fuel w path e hnl hpl hpf
    exact mainS_prep_proxy_error args fuel w path e hnl hpl hpf
  · intro args fuel w dir e hnl hpl hod hoe
    exact mainS_prep_ovpn_error args fuel w dir e hnl hpl hod hoe
  · intro args fuel s path fileLines hnl hexc hstop hm hro hpl hov hpf hempty
    exact run_loopS_empty_proxy_idles args fuel s path fileLines hnl hexc hstop hm hro
      hpl hov hpf hempty

/-- C10 witness: a concrete run whose proxy-list file cannot be opened
ends with the `FileNotFoundError` pending and a fatal log. -/
theorem c10_witness :
    (mainS pArgs 1 wBadProxyFile).2.exc = some "FileNotFoundError: proxies.txt"
      ∧ Event.log (LogMsg.fatal "FileNotFoundError: proxies.txt")
          ∈ (mainS pArgs 1 wBadProxyFile).2.trace := by
  have h := c10_prep_errors_fatal.1 pArgs 1 wBadProxyFile "proxies.txt"
    "FileNotFoundError: proxies.txt" (fun _ => rfl) rfl rfl
  exact ⟨h.1, h.2.1⟩
